import Mathlib

/-!
# Collision detection of `src/Main.cpp`

A shallow embedding of the collision subsystem of `Main.cpp`:
`GetBoundingBox`, `BoundingBoxCollision`, `IsPointInside`, the per-frame flag
reset, the collision pass of `main`, the loop that draws the sampled points,
and the construction of the scene and the input handling of `main`, which
decide the scenes the pass is run on.

## Scalars

`float` values are modelled by a type `F` with a linear order: the values of
`float` other than NaN, on which `<` is a strict total order (the program
never produces a NaN: mesh data, positions and angles are finite). Arithmetic
is NOT assumed exact: addition, subtraction, multiplication, the conversions
from and to `int`, the constants and `Vector3RotateByAxisAngle` (raymath, uses
`sinf`/`cosf`) are the fields of a `FloatOps F` record, and the general
results hold for every such record. `fminf`/`fmaxf` are `min`/`max` of the
order. Concrete scenes are evaluated in `exactOps`, exact rational arithmetic,
on inputs (small integers, angle 0) where `float` arithmetic is exact too.
-/

namespace TPN3

/-! ## Data model -/

/-- The `float` operations the program uses, left uninterpreted. -/
structure FloatOps (F : Type) where
  /-- The sum `a + b` on `float`. -/
  add : F → F → F
  /-- The difference `a - b` on `float`. -/
  sub : F → F → F
  /-- The product `a * b` on `float`. -/
  mul : F → F → F
  /-- Unary minus. -/
  neg : F → F
  /-- The constant `FLT_MAX` of `<cfloat>`. -/
  FLT_MAX : F
  /-- The constant `EPSILON` of raymath (`0.000001f`). -/
  EPSILON : F
  /-- The constant `DEG2RAD` of raylib (`PI/180`). -/
  DEG2RAD : F
  /-- Conversion `int` to `float`, as in `Vector3 point = { x,y,z }`. -/
  ofInt : Int → F
  /-- The cast `(int)f`, truncation toward zero. -/
  toInt : F → Int
  /-- The function `Vector3RotateByAxisAngle(v, axis, angle)` of raymath. -/
  Vector3RotateByAxisAngle : F × F × F → F × F × F → F → F × F × F
  /-- The value of a read outside an array or through a null pointer
  (undefined in C++; no theorem depends on it). -/
  undef : F

/-- raylib `Vector3`. -/
structure Vector3 (F : Type) where
  x : F
  y : F
  z : F
deriving DecidableEq, Repr

/-- The struct `MyBoundingBox` (lines 7-10); the default initialisers are `invalidBox`. -/
structure MyBoundingBox (F : Type) where
  min : Vector3 F
  max : Vector3 F
deriving DecidableEq, Repr

/-- The fields of raylib `Mesh` the program reads. A pointer is `none` when it
is `nullptr`, otherwise the flat array of floats it points to. -/
structure Mesh (F : Type) where
  vertexCount : Int
  vertices : Option (List F)
  normals : Option (List F)
deriving DecidableEq, Repr

/-- raylib `Model`: `meshes` holds the `meshCount` sub-meshes. -/
structure Model (F : Type) where
  meshes : List (Mesh F)
deriving DecidableEq, Repr

/-- The colours the program assigns to an object. -/
inductive Color where
  | BLUE
  | RED
  | GREEN
deriving DecidableEq, Repr

/-- The struct `Object` (lines 13-23). -/
structure Object (F : Type) where
  model : Model F
  pos : Vector3 F
  rotationAxis : Vector3 F
  rotationAngle : F
  collider : MyBoundingBox F
  colliding : Bool
  needUpdate : Bool
  color : Color
deriving DecidableEq, Repr

variable {F : Type}

/-! ## raymath helpers -/

/-- raymath `Vector3Add`. -/
def Vector3Add (E : FloatOps F) (v1 v2 : Vector3 F) : Vector3 F :=
  ⟨E.add v1.x v2.x, E.add v1.y v2.y, E.add v1.z v2.z⟩

/-- raymath `Vector3Subtract`. -/
def Vector3Subtract (E : FloatOps F) (v1 v2 : Vector3 F) : Vector3 F :=
  ⟨E.sub v1.x v2.x, E.sub v1.y v2.y, E.sub v1.z v2.z⟩

/-- raymath `Vector3DotProduct`: `v1.x*v2.x + v1.y*v2.y + v1.z*v2.z`. -/
def Vector3DotProduct (E : FloatOps F) (v1 v2 : Vector3 F) : F :=
  E.add (E.add (E.mul v1.x v2.x) (E.mul v1.y v2.y)) (E.mul v1.z v2.z)

/-- The rotation `Vector3RotateByAxisAngle` on `Vector3` records. -/
def rotate (E : FloatOps F) (v axis : Vector3 F) (angle : F) : Vector3 F :=
  let r := E.Vector3RotateByAxisAngle (v.x, v.y, v.z) (axis.x, axis.y, axis.z) angle
  ⟨r.1, r.2.1, r.2.2⟩

/-- The read `p[k]` of a float array. -/
def readAt (E : FloatOps F) (p : Option (List F)) (k : Nat) : F :=
  match p with
  | none => E.undef
  | some l => l.getD k E.undef

/-- The triple `{ p[j*3+0], p[j*3+1], p[j*3+2] }` (lines 37, 75-85). -/
def readVec (E : FloatOps F) (p : Option (List F)) (j : Nat) : Vector3 F :=
  ⟨readAt E p (j * 3 + 0), readAt E p (j * 3 + 1), readAt E p (j * 3 + 2)⟩

/-- The box `{ FLT_MAX.. }, { -FLT_MAX.. }` of lines 8-9 and 28-29. -/
def invalidBox (E : FloatOps F) : MyBoundingBox F :=
  ⟨⟨E.FLT_MAX, E.FLT_MAX, E.FLT_MAX⟩, ⟨E.neg E.FLT_MAX, E.neg E.FLT_MAX, E.neg E.FLT_MAX⟩⟩

/-! ## `BoundingBoxCollision` (lines 51-60) -/

section Ordered
variable [LinearOrder F]

/-- The function `BoundingBoxCollision(a, aPos, b, bPos)`: the six early returns in source
order. -/
def BoundingBoxCollision (E : FloatOps F) (a : MyBoundingBox F) (aPos : Vector3 F)
    (b : MyBoundingBox F) (bPos : Vector3 F) : Bool :=
  if E.add a.max.x aPos.x < E.add b.min.x bPos.x then false
  else if E.add a.min.x aPos.x > E.add b.max.x bPos.x then false
  else if E.add a.max.y aPos.y < E.add b.min.y bPos.y then false
  else if E.add a.min.y aPos.y > E.add b.max.y bPos.y then false
  else if E.add a.max.z aPos.z < E.add b.min.z bPos.z then false
  else if E.add a.min.z aPos.z > E.add b.max.z bPos.z then false
  else true

/-! ## `GetBoundingBox` (lines 25-49) -/

/-- The body of the inner loop of `GetBoundingBox` (lines 37-45) for vertex
`j` of `mesh`: rotate the vertex and fold it into the running box. -/
def accumulateVertex (E : FloatOps F) (object : Object F) (mesh : Mesh F)
    (box : MyBoundingBox F) (j : Nat) : MyBoundingBox F :=
  let vertex := readVec E mesh.vertices j
  let rotated := rotate E vertex object.rotationAxis (E.mul object.rotationAngle E.DEG2RAD)
  ⟨⟨min box.min.x rotated.x, min box.min.y rotated.y, min box.min.z rotated.z⟩,
   ⟨max box.max.x rotated.x, max box.max.y rotated.y, max box.max.z rotated.z⟩⟩

/-- The inner loop `for (int j = 0; j < mesh.vertexCount; j++)`. -/
def accumulateMesh (E : FloatOps F) (object : Object F) (box : MyBoundingBox F)
    (mesh : Mesh F) : MyBoundingBox F :=
  (List.range mesh.vertexCount.toNat).foldl (accumulateVertex E object mesh) box

/-- The function `GetBoundingBox(object)`: the loop over the sub-meshes from the
invalid box. -/
def GetBoundingBox (E : FloatOps F) (object : Object F) : MyBoundingBox F :=
  object.model.meshes.foldl (accumulateMesh E object) (invalidBox E)

/-! ## `IsPointInside` (lines 63-103) -/

/-- The value `dot` of line 93 for vertex/normal pair `j` of `mesh`. -/
def halfSpaceDot (E : FloatOps F) (object : Object F) (localPoint : Vector3 F)
    (mesh : Mesh F) (j : Nat) : F :=
  let vertex := readVec E mesh.vertices j
  let normal := readVec E mesh.normals j
  let angleRad := E.mul object.rotationAngle E.DEG2RAD
  let vertexRot := rotate E vertex object.rotationAxis angleRad
  let normalRot := rotate E normal object.rotationAxis angleRad
  let toPoint := Vector3Subtract E localPoint vertexRot
  Vector3DotProduct E normalRot toPoint

/-- One sub-mesh of the loop of `IsPointInside`: `false` when the guard of
line 71 or the test of line 95 returns false, `true` when the loop goes on to
the next sub-mesh. -/
def meshPasses (E : FloatOps F) (object : Object F) (localPoint : Vector3 F)
    (mesh : Mesh F) : Bool :=
  if mesh.vertexCount ≤ 0 ∨ mesh.normals.isNone ∨ mesh.vertices.isNone then false
  else (List.range mesh.vertexCount.toNat).all
    (fun j => !decide (halfSpaceDot E object localPoint mesh j < E.neg E.EPSILON))

/-- The function `IsPointInside(point, object)`: `true` when no sub-mesh returns false. -/
def IsPointInside (E : FloatOps F) (point : Vector3 F) (object : Object F) : Bool :=
  let localPoint := Vector3Subtract E point object.pos
  object.model.meshes.all (meshPasses E object localPoint)

/-! ## The collision pass of `main` (lines 165-169 and 240-283) -/

/-- The variables the pass writes: `objects`, `collisions`, `points`.
`collisions` is an `int` that only counts up from 0; a scene of 50 objects
gives at most 153125, far from overflow. -/
structure PassState (F : Type) where
  objects : List (Object F)
  collisions : Nat
  points : List (Vector3 F)

/-- The assignment `objects[k] = f(objects[k])`. -/
def updateAt {α : Type} (l : List α) (k : Nat) (f : α → α) : List α :=
  match l[k]? with
  | some a => l.set k (f a)
  | none => l

/-- Lines 165-169: every object is set to not colliding and BLUE. -/
def resetFlags (objects : List (Object F)) : List (Object F) :=
  objects.map (fun o => { o with colliding := false, color := Color.BLUE })

/-- Lines 246-250: rebuild the box of a dirty object and clear its flag. -/
def rebuild (E : FloatOps F) (o : Object F) : Object F :=
  if o.needUpdate then { o with collider := GetBoundingBox E o, needUpdate := false } else o

/-- Lines 272-275 for one object. -/
def markColliding (o : Object F) : Object F :=
  { o with colliding := true, color := Color.RED }

/-- The loop variable of each grid axis: `gridSize` is `{5,5,5}`, so
`int x = -gridSize.x/2` starts at `(int)(-2.5) = -2` and `x < gridSize.x/2`
holds up to `x = 2`. -/
def gridOffsets : List Int := [-2, -1, 0, 1, 2]

/-- Lines 262-266: the offset added to the position of object `i`, each
coordinate cast to `int` and back. -/
def samplePoint (E : FloatOps F) (pos : Vector3 F) (x y z : Int) : Vector3 F :=
  let point := Vector3Add E ⟨E.ofInt x, E.ofInt y, E.ofInt z⟩ pos
  ⟨E.ofInt (E.toInt point.x), E.ofInt (E.toInt point.y), E.ofInt (E.toInt point.z)⟩

/-- Lines 262-277: the body of the innermost loop. -/
def sampleStep (E : FloatOps F) (i j : Nat) (x y : Int) (s : PassState F) (z : Int) :
    PassState F :=
  match s.objects[i]?, s.objects[j]? with
  | some oi, some oj =>
    let point := samplePoint E oi.pos x y z
    if IsPointInside E point oi && IsPointInside E point oj then
      { objects := updateAt (updateAt s.objects i markColliding) j markColliding,
        collisions := s.collisions + 1,
        points := s.points ++ [point] }
    else { s with points := s.points ++ [point] }
  | _, _ => s

/-- Lines 254-281: the body of the loop over `j`. -/
def pairStep (E : FloatOps F) (i : Nat) (s : PassState F) (j : Nat) : PassState F :=
  match s.objects[i]?, s.objects[j]? with
  | some oi, some oj =>
    if BoundingBoxCollision E oj.collider oj.pos oi.collider oi.pos then
      gridOffsets.foldl (fun sx x =>
        gridOffsets.foldl (fun sy y =>
          gridOffsets.foldl (sampleStep E i j x y) sy) sx) s
    else s
  | _, _ => s

/-- Lines 246-282: the body of the loop over `i`. -/
def outerStep (E : FloatOps F) (s : PassState F) (i : Nat) : PassState F :=
  let s1 : PassState F := { s with objects := updateAt s.objects i (rebuild E) }
  (List.range' (i + 1) (s1.objects.length - (i + 1))).foldl (pairStep E i) s1

/-- Lines 240-283: `collisions = 0`, `points` empty, then the loop over `i`. -/
def collisionPass (E : FloatOps F) (objects : List (Object F)) : PassState F :=
  (List.range objects.length).foldl (outerStep E) ⟨objects, 0, []⟩

/-- One frame without input: the reset of lines 165-169, then the pass. -/
def runCollisionPass (E : FloatOps F) (objects : List (Object F)) : PassState F :=
  collisionPass E (resetFlags objects)

/-- What a pass reports: the colliding flags, the count, the sampled points. -/
def passOutput (s : PassState F) : List Bool × Nat × List (Vector3 F) :=
  (s.objects.map (fun o => o.colliding), s.collisions, s.points)

/-- The state in which line 254 tests the pair `(i, j)`: the outer loop has
run for the indices below `i`, lines 246-250 have run for `i`, and the loop of
line 252 has run for the indices from `i + 1` to `j - 1`. -/
def stateAtPair (E : FloatOps F) (objects : List (Object F)) (i j : Nat) : PassState F :=
  let s := (List.range i).foldl (outerStep E) ⟨objects, 0, []⟩
  (List.range' (i + 1) (j - (i + 1))).foldl (pairStep E i)
    ⟨updateAt s.objects i (rebuild E), s.collisions, s.points⟩

/-- Lines 142-146: an object with the default initialisers of lines 15-22, a
model, a position `{ (float)px, 0.0f, (float)pz }` and its box built. -/
def newObject (E : FloatOps F) (model : Model F) (px pz : Int) : Object F :=
  let objRand : Object F :=
    { model := model,
      pos := ⟨E.ofInt px, E.ofInt 0, E.ofInt pz⟩,
      rotationAxis := ⟨E.ofInt 0, E.ofInt 1, E.ofInt 0⟩,
      rotationAngle := E.ofInt 0,
      collider := invalidBox E,
      colliding := false,
      needUpdate := true,
      color := Color.BLUE }
  { objRand with collider := GetBoundingBox E objRand }

/-- Lines 140-148: the scene `main` builds from the models and positions the
random choices give. -/
def initScene (E : FloatOps F) (choices : List (Model F × Int × Int)) : List (Object F) :=
  choices.map fun c => newObject E c.1 c.2.1 c.2.2

/-! ## The input handling of `main` (lines 150-238 and 285) -/

/-- The keys and the frame time that lines 161 and 171-232 read in one frame. -/
structure FrameInput (F : Type) where
  tab : Bool
  leftShift : Bool
  keyT : Bool
  keyG : Bool
  keyF : Bool
  keyH : Bool
  keyU : Bool
  keyJ : Bool
  keyR : Bool
  keyY : Bool
  deltaTime : F

/-- The assignment `objects[k] = objects[src]`. The reference `obj` of line 151
is bound to `objects[0]`, so `objects[currentObject] = obj` is
`copyObject objects currentObject 0` and `obj = objects[currentObject]` is
`copyObject objects 0 currentObject`. -/
def copyObject (objects : List (Object F)) (k src : Nat) : List (Object F) :=
  match objects[src]? with
  | some o => updateAt objects k (fun _ => o)
  | none => objects

/-- Lines 171-181: the objects and `currentObject` after TAB. -/
def pressTab (st : List (Object F) × Nat) : List (Object F) × Nat :=
  let objects := copyObject st.1 st.2 0
  let currentObject := if st.2 + 1 ≥ objects.length then 0 else st.2 + 1
  (copyObject objects 0 currentObject, currentObject)

/-- Lines 183-193: the objects and `currentObject` after LEFT SHIFT. -/
def pressShift (st : List (Object F) × Nat) : List (Object F) × Nat :=
  let objects := copyObject st.1 st.2 0
  let currentObject := if st.2 = 0 then objects.length - 1 else st.2 - 1
  (copyObject objects 0 currentObject, currentObject)

/-- Lines 171-193: the selection keys. -/
def selectObject (inp : FrameInput F) (st : List (Object F) × Nat) : List (Object F) × Nat :=
  let st1 := if inp.tab then pressTab st else st
  if inp.leftShift then pressShift st1 else st1

/-- Lines 195-220: the movement keys change `obj.pos` by `moveSpeed * deltaTime`,
with `moveSpeed = 10.0f`. -/
def moveSelected (E : FloatOps F) (inp : FrameInput F) (objects : List (Object F)) :
    List (Object F) :=
  let step := E.mul (E.ofInt 10) inp.deltaTime
  let o1 := if inp.keyT then updateAt objects 0
    (fun o => { o with pos := { o.pos with z := E.sub o.pos.z step } }) else objects
  let o2 := if inp.keyG then updateAt o1 0
    (fun o => { o with pos := { o.pos with z := E.add o.pos.z step } }) else o1
  let o3 := if inp.keyF then updateAt o2 0
    (fun o => { o with pos := { o.pos with x := E.sub o.pos.x step } }) else o2
  let o4 := if inp.keyH then updateAt o3 0
    (fun o => { o with pos := { o.pos with x := E.add o.pos.x step } }) else o3
  let o5 := if inp.keyU then updateAt o4 0
    (fun o => { o with pos := { o.pos with y := E.sub o.pos.y step } }) else o4
  if inp.keyJ then updateAt o5 0
    (fun o => { o with pos := { o.pos with y := E.add o.pos.y step } }) else o5

/-- Lines 222-232: the rotation keys change `obj.rotationAngle` by
`rotateSpeed * deltaTime`, with `rotateSpeed = 50.0f`, and set the dirty flag. -/
def turnSelected (E : FloatOps F) (inp : FrameInput F) (objects : List (Object F)) :
    List (Object F) :=
  let turn := E.mul (E.ofInt 50) inp.deltaTime
  let o1 := if inp.keyR then updateAt objects 0
    (fun o => { o with rotationAngle := E.add o.rotationAngle turn, needUpdate := true })
    else objects
  if inp.keyY then updateAt o1 0
    (fun o => { o with rotationAngle := E.sub o.rotationAngle turn, needUpdate := true })
    else o1

/-- Lines 171-238: selection, movement and rotation of `obj`, then the rebuild
of its box when it is dirty. -/
def handleInput (E : FloatOps F) (inp : FrameInput F) (st : List (Object F) × Nat) :
    List (Object F) × Nat :=
  let st2 := selectObject inp st
  (updateAt (turnSelected E inp (moveSelected E inp st2.1)) 0 (rebuild E), st2.2)

/-- The objects line 240 hands to the pass in a frame that starts from `st`:
the reset of lines 165-169, then the input handling. -/
def sceneAtPass (E : FloatOps F) (inp : FrameInput F) (st : List (Object F) × Nat) :
    List (Object F) :=
  (handleInput E inp (resetFlags st.1, st.2)).1

/-- One frame of the loop of line 158: reset, input, pass, and line 285. -/
def frame (E : FloatOps F) (st : List (Object F) × Nat) (inp : FrameInput F) :
    List (Object F) × Nat :=
  let st1 := handleInput E inp (resetFlags st.1, st.2)
  (updateAt (collisionPass E st1.1).objects 0 (fun o => { o with color := Color.GREEN }), st1.2)

/-- The objects and `currentObject` after the frames with the inputs `inputs`,
from the scene of lines 140-150 (`currentObject = 0`; lines 153-154 assign
`objects[0]` to itself). -/
def mainState (E : FloatOps F) (choices : List (Model F × Int × Int))
    (inputs : List (FrameInput F)) : List (Object F) × Nat :=
  inputs.foldl (frame E) (initScene E choices, 0)

end Ordered

/-! ## The loop that draws the sampled points (lines 306-309) -/

/-- The bound `points.size()-1`, computed in the 64-bit unsigned `size_t`. -/
def drawBound (size : Nat) : Nat := (size + 2 ^ 64 - 1) % 2 ^ 64

/-- The `int i` converted to `size_t` for the comparison `i < points.size()-1`. -/
def toSizeT (i : Int) : Nat := (i % 2 ^ 64).toNat

/-- The step `i += 2` on a 32-bit `int` (two's complement on overflow). -/
def nextIndex (i : Int) : Int := (i + 2 + 2 ^ 31) % 2 ^ 32 - 2 ^ 31

/-- The loop `for (int i = 0; i < points.size()-1; i+=2) DrawSphere(points[i], ..)`
run from the value `i` for at most `fuel` iterations: `some reads` when the loop
exits, where `reads` are the indices `i` of the elements `points[i]` it has read
(as `size_t`), and `none` when it is still running after `fuel` iterations. -/
def drawLoop (size : Nat) : Nat → Int → Option (List Nat)
  | 0, _ => none
  | fuel + 1, i =>
    if toSizeT i < drawBound size then
      (drawLoop size fuel (nextIndex i)).map (fun reads => toSizeT i :: reads)
    else some []

/-- The indices read by the first `fuel` iterations of the loop. -/
def drawReads (size : Nat) : Nat → Int → List Nat
  | 0, _ => []
  | fuel + 1, i =>
    if toSizeT i < drawBound size then toSizeT i :: drawReads size fuel (nextIndex i)
    else []

/-! ## Concrete scenes -/

/-- Exact rational arithmetic, with the `float` values of the constants.
`Vector3RotateByAxisAngle` returns its argument: this is what raymath computes
at angle 0 (`sinf(0) = 0`, so both cross products vanish), the only angle of
the scenes below. -/
def exactOps : FloatOps ℚ where
  add := fun a b => a + b
  sub := fun a b => a - b
  mul := fun a b => a * b
  neg := fun a => -a
  FLT_MAX := 340282346638528859811704183484516925440
  EPSILON := 8796093 / 8796093022208
  DEG2RAD := 9370165 / 536870912
  ofInt := fun n => (n : ℚ)
  toInt := fun q => q.num.tdiv q.den
  Vector3RotateByAxisAngle := fun v _ _ => v
  undef := 0

/-- A single triangle in the plane `y = 0` with normals `(0,1,0)`. -/
def triangle : Mesh ℚ :=
  { vertexCount := 3,
    vertices := some [0, 0, 0, 1, 0, 0, 0, 0, 1],
    normals := some [0, 1, 0, 0, 1, 0, 0, 1, 0] }

/-- An object as `Object objRand;` leaves it (lines 15-22) once its model is
assigned: position 0, axis `(0,1,0)`, angle 0, the invalid box, dirty. -/
def freshObject (model : Model ℚ) : Object ℚ :=
  { model := model,
    pos := ⟨0, 0, 0⟩,
    rotationAxis := ⟨0, 1, 0⟩,
    rotationAngle := 0,
    collider := invalidBox exactOps,
    colliding := false,
    needUpdate := true,
    color := Color.BLUE }

/-- The triangle object with its box built and its flag cleared, as lines
234-238 leave the selected object. -/
def builtTriangle : Object ℚ :=
  { freshObject ⟨[triangle]⟩ with
    collider := GetBoundingBox exactOps (freshObject ⟨[triangle]⟩),
    needUpdate := false }

/-- Two triangle objects at the origin: the first built, the second still
dirty with the box of its default initialiser. -/
def staleScene : List (Object ℚ) := [builtTriangle, freshObject ⟨[triangle]⟩]

/-- The same scene with both boxes built. -/
def builtScene : List (Object ℚ) := [builtTriangle, builtTriangle]

/-- The box spanning the whole finite range of `float` on every axis. -/
def wideBox : MyBoundingBox ℚ :=
  ⟨⟨-340282346638528859811704183484516925440, -340282346638528859811704183484516925440,
    -340282346638528859811704183484516925440⟩,
   ⟨340282346638528859811704183484516925440, 340282346638528859811704183484516925440,
    340282346638528859811704183484516925440⟩⟩

/-- The unit cube centred at the origin: four corners for each of the six
faces, each with the normal of its face pointing into the cube, the
orientation for which `IsPointInside` accepts the points of the cube. -/
def cube : Mesh ℚ :=
  { vertexCount := 24,
    vertices := some [
      1/2, -1/2, -1/2, 1/2, 1/2, -1/2, 1/2, 1/2, 1/2, 1/2, -1/2, 1/2, -1/2, -1/2, -1/2, -1/2,
      1/2, -1/2, -1/2, 1/2, 1/2, -1/2, -1/2, 1/2, -1/2, 1/2, -1/2, 1/2, 1/2, -1/2, 1/2, 1/2,
      1/2, -1/2, 1/2, 1/2, -1/2, -1/2, -1/2, 1/2, -1/2, -1/2, 1/2, -1/2, 1/2, -1/2, -1/2, 1/2,
      -1/2, -1/2, 1/2, 1/2, -1/2, 1/2, 1/2, 1/2, 1/2, -1/2, 1/2, 1/2, -1/2, -1/2, -1/2, 1/2,
      -1/2, -1/2, 1/2, 1/2, -1/2, -1/2, 1/2, -1/2],
    normals := some [
      -1, 0, 0, -1, 0, 0, -1, 0, 0, -1, 0, 0, 1, 0, 0, 1, 0, 0, 1, 0, 0, 1, 0, 0, 0, -1, 0, 0,
      -1, 0, 0, -1, 0, 0, -1, 0, 0, 1, 0, 0, 1, 0, 0, 1, 0, 0, 1, 0, 0, 0, -1, 0, 0, -1, 0, 0,
      -1, 0, 0, -1, 0, 0, 1, 0, 0, 1, 0, 0, 1, 0, 0, 1] }

/-- The models and positions of a scene of two unit cubes at the origin. -/
def demoChoices : List (Model ℚ × Int × Int) := [(⟨[cube]⟩, 0, 0), (⟨[cube]⟩, 0, 0)]

/-- A frame of `1/32` s with the key H down: `obj` moves by `10 * 1/32` along x. -/
def demoInput : FrameInput ℚ :=
  { tab := false, leftShift := false, keyT := false, keyG := false, keyF := false,
    keyH := true, keyU := false, keyJ := false, keyR := false, keyY := false,
    deltaTime := 1 / 32 }

/-- The scene `main` hands to the pass in its first frame, for `demoChoices` and
`demoInput`: the first cube at `(5/16, 0, 0)` and clean, the second at the
origin and still dirty, both with their boxes built. -/
def demoScene : List (Object ℚ) :=
  sceneAtPass exactOps demoInput (mainState exactOps demoChoices [])

/-- The triangle scene with the dirty object that holds the invalid box first. -/
def staleFirstScene : List (Object ℚ) := [freshObject ⟨[triangle]⟩, builtTriangle]

/-- An object whose model has no sub-mesh (`Model model = {}`, line 15). -/
def emptyObject : Object ℚ := freshObject ⟨[]⟩

/-! ## Notions used to state the properties -/

section Notions
variable {F : Type} [LinearOrder F]

/-- Vertex `j` of `mesh` rotated by the rotation of `object` (line 38). -/
def rotatedVertex (E : FloatOps F) (object : Object F) (mesh : Mesh F) (j : Nat) : Vector3 F :=
  rotate E (readVec E mesh.vertices j) object.rotationAxis
    (E.mul object.rotationAngle E.DEG2RAD)

/-- Normal `j` of `mesh` rotated by the rotation of `object` (line 89). -/
def rotatedNormal (E : FloatOps F) (object : Object F) (mesh : Mesh F) (j : Nat) : Vector3 F :=
  rotate E (readVec E mesh.normals j) object.rotationAxis
    (E.mul object.rotationAngle E.DEG2RAD)

/-- The point `r` lies in `box`: `box.min <= r <= box.max` on x, y and z. -/
def Contains (box : MyBoundingBox F) (r : Vector3 F) : Prop :=
  (box.min.x ≤ r.x ∧ r.x ≤ box.max.x) ∧ (box.min.y ≤ r.y ∧ r.y ≤ box.max.y) ∧
  (box.min.z ≤ r.z ∧ r.z ≤ box.max.z)

/-- An object with the two fields the pass marks (`colliding`, `color`) set
to fixed values: what `GetBoundingBox`, `BoundingBoxCollision` and
`IsPointInside` can see of it. -/
def core (o : Object F) : Object F :=
  { o with colliding := false, color := Color.BLUE }

/-- Apply `markColliding` when `b` holds. -/
def markIf (b : Bool) (o : Object F) : Object F :=
  if b then markColliding o else o

/-- The 125 offsets `(x, y, z)` in the order of the three grid loops. -/
def gridTriples : List (Int × Int × Int) :=
  gridOffsets.flatMap fun x => gridOffsets.flatMap fun y => gridOffsets.map fun z => (x, y, z)

/-- The test of line 271 for objects `oi`, `oj` and the offset `t`. -/
def sampleHit (E : FloatOps F) (oi oj : Object F) (t : Int × Int × Int) : Bool :=
  IsPointInside E (samplePoint E oi.pos t.1 t.2.1 t.2.2) oi &&
    IsPointInside E (samplePoint E oi.pos t.1 t.2.1 t.2.2) oj

/-- The pair `(oi, oj)` passes the test of line 254 and some offset passes the
test of line 271. -/
def pairFlag (E : FloatOps F) (oi oj : Object F) : Bool :=
  BoundingBoxCollision E oj.collider oj.pos oi.collider oi.pos &&
    gridTriples.any (sampleHit E oi oj)

/-- The number of offsets that pass the test of line 271 when the pair passes
the test of line 254, and 0 otherwise. -/
def pairHits (E : FloatOps F) (oi oj : Object F) : Nat :=
  if BoundingBoxCollision E oj.collider oj.pos oi.collider oi.pos then
    gridTriples.countP (sampleHit E oi oj)
  else 0

/-- The flag `pairFlag` for the objects `i < j` of the scene `objs` at the moment the
pass tests the pair: object `i` has gone through lines 246-250, object `j` is
as the scene holds it. -/
def pairFlagAt (E : FloatOps F) (objs : List (Object F)) (i j : Nat) : Bool :=
  match objs[i]?, objs[j]? with
  | some oi, some oj => pairFlag E (rebuild E oi) oj
  | _, _ => false

/-- The count `pairHits` for the objects `i < j` of the scene, as `pairFlagAt`. -/
def pairHitsAt (E : FloatOps F) (objs : List (Object F)) (i j : Nat) : Nat :=
  match objs[i]?, objs[j]? with
  | some oi, some oj => pairHits E (rebuild E oi) oj
  | _, _ => 0

/-- The values of `j` in the loop of line 252 for a scene of `n` objects. -/
def partners (n i : Nat) : List Nat := List.range' (i + 1) (n - (i + 1))

/-- Object `k` is marked while the pass handles the pairs `(i, _)`. -/
def rowFlag (E : FloatOps F) (objs : List (Object F)) (i k : Nat) : Bool :=
  (partners objs.length i).any fun j => (k == i || k == j) && pairFlagAt E objs i j

/-- Object `k` is marked during the first `a` iterations of the outer loop. -/
def doneFlag (E : FloatOps F) (objs : List (Object F)) (a k : Nat) : Bool :=
  (List.range a).any fun i => rowFlag E objs i k

/-- The increments of `collisions` while the pass handles the pairs `(i, _)`. -/
def rowHits (E : FloatOps F) (objs : List (Object F)) (i : Nat) : Nat :=
  ((partners objs.length i).map (pairHitsAt E objs i)).sum

/-- The increments of `collisions` during the first `a` iterations of the
outer loop. -/
def doneHits (E : FloatOps F) (objs : List (Object F)) (a : Nat) : Nat :=
  ((List.range a).map (rowHits E objs)).sum

/-- An object with its marks and its dirty flag set to fixed values: the
model, position, rotation and box that the two tests of the pass read. -/
def geom (o : Object F) : Object F :=
  { o with colliding := false, needUpdate := false, color := Color.BLUE }

/-- The points line 269 records for the pair `(oi, oj)`. -/
def pairPoints (E : FloatOps F) (oi oj : Object F) : List (Vector3 F) :=
  if BoundingBoxCollision E oj.collider oj.pos oi.collider oi.pos then
    gridTriples.map fun t => samplePoint E oi.pos t.1 t.2.1 t.2.2
  else []

/-- The points recorded for the objects `i < j` of the scene, as `pairFlagAt`. -/
def pairPointsAt (E : FloatOps F) (objs : List (Object F)) (i j : Nat) : List (Vector3 F) :=
  match objs[i]?, objs[j]? with
  | some oi, some oj => pairPoints E (rebuild E oi) oj
  | _, _ => []

/-- The points recorded while the pass handles the pairs `(i, _)`. -/
def rowPoints (E : FloatOps F) (objs : List (Object F)) (i : Nat) : List (Vector3 F) :=
  (partners objs.length i).flatMap (pairPointsAt E objs i)

/-- The points recorded during the first `a` iterations of the outer loop. -/
def donePoints (E : FloatOps F) (objs : List (Object F)) (a : Nat) : List (Vector3 F) :=
  (List.range a).flatMap (rowPoints E objs)

/-- The pair of a lower-indexed object `oi` and a higher-indexed object `oj`
collides, in the words of the specification: `BoundingBoxCollision` holds for
the cached boxes and the positions of the two objects, and for some offsets
`x, y, z` in `-2 .. 2` the point `oi.pos + (x, y, z)`, each coordinate
truncated to an integer, is inside both objects. -/
def PairCollides (E : FloatOps F) (oi oj : Object F) : Prop :=
  BoundingBoxCollision E oj.collider oj.pos oi.collider oi.pos = true ∧
  ∃ x ∈ ([-2, -1, 0, 1, 2] : List Int), ∃ y ∈ ([-2, -1, 0, 1, 2] : List Int),
    ∃ z ∈ ([-2, -1, 0, 1, 2] : List Int),
      IsPointInside E
        ⟨E.ofInt (E.toInt (E.add (E.ofInt x) oi.pos.x)),
         E.ofInt (E.toInt (E.add (E.ofInt y) oi.pos.y)),
         E.ofInt (E.toInt (E.add (E.ofInt z) oi.pos.z))⟩ oi = true ∧
      IsPointInside E
        ⟨E.ofInt (E.toInt (E.add (E.ofInt x) oi.pos.x)),
         E.ofInt (E.toInt (E.add (E.ofInt y) oi.pos.y)),
         E.ofInt (E.toInt (E.add (E.ofInt z) oi.pos.z))⟩ oj = true

/-- The tuples `(i, j, x, y, z)` with `i < j < n` and `x, y, z` in `-2 .. 2`,
each listed once. -/
def candidateTuples (n : Nat) : List (Nat × Nat × Int × Int × Int) :=
  (List.range n).flatMap fun i => (List.range' (i + 1) (n - (i + 1))).flatMap fun j =>
    (([-2, -1, 0, 1, 2] : List Int).flatMap fun x =>
      ([-2, -1, 0, 1, 2] : List Int).flatMap fun y =>
        ([-2, -1, 0, 1, 2] : List Int).map fun z => (x, y, z)).map fun t => (i, j, t)

/-- The tuple `(i, j, x, y, z)` counts as a collision: the cached boxes of
objects `i` and `j` pass `BoundingBoxCollision` and the point
`objects[i].pos + (x, y, z)`, truncated, is inside both objects. -/
def tupleHit (E : FloatOps F) (objs : List (Object F)) (t : Nat × Nat × Int × Int × Int) :
    Bool :=
  match objs[t.1]?, objs[t.2.1]? with
  | some oi, some oj =>
    BoundingBoxCollision E oj.collider oj.pos oi.collider oi.pos &&
      (IsPointInside E
          ⟨E.ofInt (E.toInt (E.add (E.ofInt t.2.2.1) oi.pos.x)),
           E.ofInt (E.toInt (E.add (E.ofInt t.2.2.2.1) oi.pos.y)),
           E.ofInt (E.toInt (E.add (E.ofInt t.2.2.2.2) oi.pos.z))⟩ oi &&
        IsPointInside E
          ⟨E.ofInt (E.toInt (E.add (E.ofInt t.2.2.1) oi.pos.x)),
           E.ofInt (E.toInt (E.add (E.ofInt t.2.2.2.1) oi.pos.y)),
           E.ofInt (E.toInt (E.add (E.ofInt t.2.2.2.2) oi.pos.z))⟩ oj)
  | _, _ => false

end Notions

/-! ## Theorems: `BoundingBoxCollision` -/

section Theorems
variable {F : Type} [LinearOrder F]

/-- The two argument orders of `BoundingBoxCollision` agree. -/
theorem BoundingBoxCollision_symm (E : FloatOps F) (a : MyBoundingBox F) (aPos : Vector3 F)
    (b : MyBoundingBox F) (bPos : Vector3 F) :
    BoundingBoxCollision E a aPos b bPos = BoundingBoxCollision E b bPos a aPos := by
  unfold BoundingBoxCollision
  simp only [gt_iff_lt]
  split_ifs <;> rfl

/-- The function `BoundingBoxCollision` is false exactly when some axis separates the two
translated boxes. -/
theorem BoundingBoxCollision_eq_false_iff (E : FloatOps F) (a : MyBoundingBox F)
    (aPos : Vector3 F) (b : MyBoundingBox F) (bPos : Vector3 F) :
    BoundingBoxCollision E a aPos b bPos = false ↔
      (E.add a.max.x aPos.x < E.add b.min.x bPos.x ∨ E.add b.max.x bPos.x < E.add a.min.x aPos.x) ∨
      (E.add a.max.y aPos.y < E.add b.min.y bPos.y ∨ E.add b.max.y bPos.y < E.add a.min.y aPos.y) ∨
      (E.add a.max.z aPos.z < E.add b.min.z bPos.z ∨ E.add b.max.z bPos.z < E.add a.min.z aPos.z) := by
  unfold BoundingBoxCollision
  simp only [gt_iff_lt]
  split_ifs <;> simp_all

/-- C1: `BoundingBoxCollision(A, pa, B, pb)` is true iff on each of x, y, z
`A.max + pa >= B.min + pb` and `A.min + pa <= B.max + pb`, and it is false iff
on some axis one translated max is strictly less than the other box's
translated min. -/
theorem BoundingBoxCollision_spec (E : FloatOps F) (a : MyBoundingBox F) (aPos : Vector3 F)
    (b : MyBoundingBox F) (bPos : Vector3 F) :
    (BoundingBoxCollision E a aPos b bPos = true ↔
      (E.add a.max.x aPos.x ≥ E.add b.min.x bPos.x ∧ E.add a.min.x aPos.x ≤ E.add b.max.x bPos.x) ∧
      (E.add a.max.y aPos.y ≥ E.add b.min.y bPos.y ∧ E.add a.min.y aPos.y ≤ E.add b.max.y bPos.y) ∧
      (E.add a.max.z aPos.z ≥ E.add b.min.z bPos.z ∧ E.add a.min.z aPos.z ≤ E.add b.max.z bPos.z)) ∧
    (BoundingBoxCollision E a aPos b bPos = false ↔
      (E.add a.max.x aPos.x < E.add b.min.x bPos.x ∨ E.add b.max.x bPos.x < E.add a.min.x aPos.x) ∨
      (E.add a.max.y aPos.y < E.add b.min.y bPos.y ∨ E.add b.max.y bPos.y < E.add a.min.y aPos.y) ∨
      (E.add a.max.z aPos.z < E.add b.min.z bPos.z ∨ E.add b.max.z bPos.z < E.add a.min.z aPos.z)) := by
  refine ⟨?_, BoundingBoxCollision_eq_false_iff E a aPos b bPos⟩
  have h := BoundingBoxCollision_eq_false_iff E a aPos b bPos
  rw [← Bool.not_eq_false, h]
  simp only [not_or, not_lt, ge_iff_le]

/-- A sub-mesh without vertices leaves the running box as it is. -/
theorem accumulateMesh_of_no_vertices (E : FloatOps F) (object : Object F)
    (box : MyBoundingBox F) (mesh : Mesh F) (h : mesh.vertexCount ≤ 0) :
    accumulateMesh E object box mesh = box := by
  unfold accumulateMesh
  have : mesh.vertexCount.toNat = 0 := by omega
  rw [this]
  rfl

/-- Sub-meshes without vertices leave the running box as it is. -/
theorem foldl_accumulateMesh_of_no_vertices (E : FloatOps F) (object : Object F)
    (meshes : List (Mesh F)) (box : MyBoundingBox F)
    (h : ∀ mesh ∈ meshes, mesh.vertexCount ≤ 0) :
    meshes.foldl (accumulateMesh E object) box = box := by
  induction meshes generalizing box with
  | nil => rfl
  | cons m ms ih =>
    rw [List.foldl_cons, accumulateMesh_of_no_vertices E object box m (h m (List.mem_cons_self _ _))]
    exact ih box (fun mesh hm => h mesh (List.mem_cons_of_mem _ hm))

/-- For an object with no vertices `GetBoundingBox` returns the invalid box. -/
theorem GetBoundingBox_of_no_vertices (E : FloatOps F) (object : Object F)
    (h : ∀ mesh ∈ object.model.meshes, mesh.vertexCount ≤ 0) :
    GetBoundingBox E object = invalidBox E :=
  foldl_accumulateMesh_of_no_vertices E object object.model.meshes (invalidBox E) h

/-- C2 (as amended): for the invalid box of an object with no vertices, both
argument orders return false whenever, on some axis, the other box's
translated min exceeds `-FLT_MAX + pa` or its translated max is below
`FLT_MAX + pa`. -/
theorem invalid_box_no_overlap (E : FloatOps F) (object : Object F) (b : MyBoundingBox F)
    (pa pb : Vector3 F)
    (hempty : ∀ mesh ∈ object.model.meshes, mesh.vertexCount ≤ 0)
    (hsep :
      (E.add (E.neg E.FLT_MAX) pa.x < E.add b.min.x pb.x ∨ E.add b.max.x pb.x < E.add E.FLT_MAX pa.x) ∨
      (E.add (E.neg E.FLT_MAX) pa.y < E.add b.min.y pb.y ∨ E.add b.max.y pb.y < E.add E.FLT_MAX pa.y) ∨
      (E.add (E.neg E.FLT_MAX) pa.z < E.add b.min.z pb.z ∨ E.add b.max.z pb.z < E.add E.FLT_MAX pa.z)) :
    BoundingBoxCollision E (GetBoundingBox E object) pa b pb = false ∧
    BoundingBoxCollision E b pb (GetBoundingBox E object) pa = false := by
  rw [GetBoundingBox_of_no_vertices E object hempty]
  have h : BoundingBoxCollision E (invalidBox E) pa b pb = false :=
    (BoundingBoxCollision_eq_false_iff E (invalidBox E) pa b pb).mpr hsep
  exact ⟨h, by rw [BoundingBoxCollision_symm]; exact h⟩

end Theorems

/-- C2, witness: the invalid box of the object without sub-mesh against the
box of the triangle, both at the origin. -/
theorem invalid_box_no_overlap_witness :
    BoundingBoxCollision exactOps (GetBoundingBox exactOps emptyObject) ⟨0, 0, 0⟩
      builtTriangle.collider ⟨0, 0, 0⟩ = false ∧
    BoundingBoxCollision exactOps builtTriangle.collider ⟨0, 0, 0⟩
      (GetBoundingBox exactOps emptyObject) ⟨0, 0, 0⟩ = false :=
  invalid_box_no_overlap exactOps emptyObject builtTriangle.collider ⟨0, 0, 0⟩ ⟨0, 0, 0⟩
    (by decide!) (by decide!)

/-- C2, counterexample: the box that `GetBoundingBox` returns for the object
without sub-mesh has `min > max` on every axis, and `BoundingBoxCollision`
returns true for it, in both argument orders, against the box spanning
`[-FLT_MAX, FLT_MAX]` on every axis at the same position. -/
theorem invalid_box_overlap_counterexample :
    ((GetBoundingBox exactOps emptyObject).min.x > (GetBoundingBox exactOps emptyObject).max.x ∧
     (GetBoundingBox exactOps emptyObject).min.y > (GetBoundingBox exactOps emptyObject).max.y ∧
     (GetBoundingBox exactOps emptyObject).min.z > (GetBoundingBox exactOps emptyObject).max.z) ∧
    BoundingBoxCollision exactOps (GetBoundingBox exactOps emptyObject) ⟨0, 0, 0⟩
      wideBox ⟨0, 0, 0⟩ = true ∧
    BoundingBoxCollision exactOps wideBox ⟨0, 0, 0⟩
      (GetBoundingBox exactOps emptyObject) ⟨0, 0, 0⟩ = true := by
  decide!

/-! ## Theorems: `GetBoundingBox` -/

section Theorems
variable {F : Type} [LinearOrder F]

theorem accumulateVertex_contains_self (E : FloatOps F) (object : Object F) (mesh : Mesh F)
    (box : MyBoundingBox F) (j : Nat) :
    Contains (accumulateVertex E object mesh box j) (rotatedVertex E object mesh j) := by
  simp [Contains, accumulateVertex, rotatedVertex]

theorem accumulateVertex_mono (E : FloatOps F) (object : Object F) (mesh : Mesh F)
    (box : MyBoundingBox F) (j : Nat) (r : Vector3 F) (h : Contains box r) :
    Contains (accumulateVertex E object mesh box j) r := by
  obtain ⟨⟨h1, h2⟩, ⟨h3, h4⟩, h5, h6⟩ := h
  simp only [Contains, accumulateVertex, min_le_iff, le_max_iff]
  exact ⟨⟨Or.inl h1, Or.inl h2⟩, ⟨Or.inl h3, Or.inl h4⟩, Or.inl h5, Or.inl h6⟩

theorem foldl_accumulateVertex_mono (E : FloatOps F) (object : Object F) (mesh : Mesh F)
    (js : List Nat) (box : MyBoundingBox F) (r : Vector3 F) (h : Contains box r) :
    Contains (js.foldl (accumulateVertex E object mesh) box) r := by
  induction js generalizing box with
  | nil => exact h
  | cons a js ih => exact ih _ (accumulateVertex_mono E object mesh box a r h)

theorem foldl_accumulateVertex_contains (E : FloatOps F) (object : Object F) (mesh : Mesh F)
    (js : List Nat) (box : MyBoundingBox F) (j : Nat) (hj : j ∈ js) :
    Contains (js.foldl (accumulateVertex E object mesh) box) (rotatedVertex E object mesh j) := by
  induction js generalizing box with
  | nil => cases hj
  | cons a js ih =>
    rcases List.mem_cons.mp hj with rfl | hj
    · exact foldl_accumulateVertex_mono E object mesh js _ _
        (accumulateVertex_contains_self E object mesh box j)
    · exact ih _ hj

theorem foldl_accumulateMesh_mono (E : FloatOps F) (object : Object F)
    (meshes : List (Mesh F)) (box : MyBoundingBox F) (r : Vector3 F) (h : Contains box r) :
    Contains (meshes.foldl (accumulateMesh E object) box) r := by
  induction meshes generalizing box with
  | nil => exact h
  | cons m ms ih => exact ih _ (foldl_accumulateVertex_mono E object m _ box r h)

theorem foldl_accumulateMesh_contains (E : FloatOps F) (object : Object F)
    (meshes : List (Mesh F)) (box : MyBoundingBox F) (mesh : Mesh F) (hmesh : mesh ∈ meshes)
    (j : Nat) (hj : (j : Int) < mesh.vertexCount) :
    Contains (meshes.foldl (accumulateMesh E object) box) (rotatedVertex E object mesh j) := by
  induction meshes generalizing box with
  | nil => cases hmesh
  | cons m ms ih =>
    rcases List.mem_cons.mp hmesh with rfl | hmesh
    · refine foldl_accumulateMesh_mono E object ms _ _ ?_
      exact foldl_accumulateVertex_contains E object mesh _ box j
        (List.mem_range.mpr (by omega))
    · exact ih _ hmesh

/-- C3: every vertex `j` of every sub-mesh of an object, rotated by the
object's rotation, lies in the box returned by `GetBoundingBox`
(`box.min <= rotate(v) <= box.max` on x, y, z); hence the box of an object
with a vertex has `min <= max` on every axis, whatever the axis and angle. -/
theorem GetBoundingBox_contains (E : FloatOps F) (object : Object F) (mesh : Mesh F)
    (hmesh : mesh ∈ object.model.meshes) (j : Nat) (hj : (j : Int) < mesh.vertexCount) :
    ((GetBoundingBox E object).min.x ≤
        (rotate E (readVec E mesh.vertices j) object.rotationAxis
          (E.mul object.rotationAngle E.DEG2RAD)).x ∧
      (rotate E (readVec E mesh.vertices j) object.rotationAxis
          (E.mul object.rotationAngle E.DEG2RAD)).x ≤ (GetBoundingBox E object).max.x) ∧
    ((GetBoundingBox E object).min.y ≤
        (rotate E (readVec E mesh.vertices j) object.rotationAxis
          (E.mul object.rotationAngle E.DEG2RAD)).y ∧
      (rotate E (readVec E mesh.vertices j) object.rotationAxis
          (E.mul object.rotationAngle E.DEG2RAD)).y ≤ (GetBoundingBox E object).max.y) ∧
    ((GetBoundingBox E object).min.z ≤
        (rotate E (readVec E mesh.vertices j) object.rotationAxis
          (E.mul object.rotationAngle E.DEG2RAD)).z ∧
      (rotate E (readVec E mesh.vertices j) object.rotationAxis
          (E.mul object.rotationAngle E.DEG2RAD)).z ≤ (GetBoundingBox E object).max.z) ∧
    (GetBoundingBox E object).min.x ≤ (GetBoundingBox E object).max.x ∧
    (GetBoundingBox E object).min.y ≤ (GetBoundingBox E object).max.y ∧
    (GetBoundingBox E object).min.z ≤ (GetBoundingBox E object).max.z := by
  have h : Contains (GetBoundingBox E object) (rotatedVertex E object mesh j) :=
    foldl_accumulateMesh_contains E object object.model.meshes (invalidBox E) mesh hmesh j hj
  obtain ⟨⟨h1, h2⟩, ⟨h3, h4⟩, h5, h6⟩ := h
  exact ⟨⟨h1, h2⟩, ⟨h3, h4⟩, ⟨h5, h6⟩, le_trans h1 h2, le_trans h3 h4, le_trans h5 h6⟩

/-! ## Theorems: `IsPointInside` -/

/-- A sub-mesh that passes the guard of line 71 passes the loop iff every
vertex/normal pair has `dot >= -EPSILON`. -/
theorem meshPasses_iff (E : FloatOps F) (object : Object F) (localPoint : Vector3 F)
    (mesh : Mesh F)
    (h : 0 < mesh.vertexCount ∧ mesh.vertices.isSome = true ∧ mesh.normals.isSome = true) :
    meshPasses E object localPoint mesh = true ↔
      ∀ j : Nat, (j : Int) < mesh.vertexCount →
        E.neg E.EPSILON ≤ halfSpaceDot E object localPoint mesh j := by
  obtain ⟨h1, h2, h3⟩ := h
  have hg : ¬ (mesh.vertexCount ≤ 0 ∨ mesh.normals.isNone = true ∨ mesh.vertices.isNone = true) := by
    rw [Option.isSome_iff_exists] at h2 h3
    obtain ⟨v, hv⟩ := h2
    obtain ⟨n, hn⟩ := h3
    simp [hv, hn, h1]
  unfold meshPasses
  rw [if_neg hg, List.all_eq_true]
  constructor
  · intro h j hj
    have := h j (List.mem_range.mpr (by omega))
    simpa using this
  · intro h j hj
    have := h j (by have := List.mem_range.mp hj; omega)
    simpa using this

/-- C4: for an object whose sub-meshes all have at least one vertex and have
vertex and normal data, `IsPointInside(p, object)` is true iff for every
vertex/normal pair `(v, n)` of every sub-mesh
`dot(rotate(n), (p - object.pos) - rotate(v)) >= -EPSILON`; the point is only
translated, never rotated. -/
theorem IsPointInside_iff (E : FloatOps F) (point : Vector3 F) (object : Object F)
    (h : ∀ mesh ∈ object.model.meshes,
      0 < mesh.vertexCount ∧ mesh.vertices.isSome = true ∧ mesh.normals.isSome = true) :
    IsPointInside E point object = true ↔
      ∀ mesh ∈ object.model.meshes, ∀ j : Nat, (j : Int) < mesh.vertexCount →
        Vector3DotProduct E
          (rotate E (readVec E mesh.normals j) object.rotationAxis
            (E.mul object.rotationAngle E.DEG2RAD))
          (Vector3Subtract E (Vector3Subtract E point object.pos)
            (rotate E (readVec E mesh.vertices j) object.rotationAxis
              (E.mul object.rotationAngle E.DEG2RAD))) ≥ E.neg E.EPSILON := by
  unfold IsPointInside
  rw [List.all_eq_true]
  constructor
  · intro hall mesh hmesh j hj
    exact (meshPasses_iff E object _ mesh (h mesh hmesh)).mp (hall mesh hmesh) j hj
  · intro hall mesh hmesh
    exact (meshPasses_iff E object _ mesh (h mesh hmesh)).mpr (hall mesh hmesh)

/-- An object with a sub-mesh that has no vertices, no normal data or no
vertex data contains no point. -/
theorem IsPointInside_degenerate_mesh (E : FloatOps F) (point : Vector3 F) (object : Object F)
    (mesh : Mesh F) (hmesh : mesh ∈ object.model.meshes)
    (h : mesh.vertexCount ≤ 0 ∨ mesh.normals = none ∨ mesh.vertices = none) :
    IsPointInside E point object = false := by
  unfold IsPointInside
  rw [List.all_eq_false]
  refine ⟨mesh, hmesh, ?_⟩
  have hg : mesh.vertexCount ≤ 0 ∨ mesh.normals.isNone = true ∨ mesh.vertices.isNone = true := by
    rcases h with h | h | h
    · exact Or.inl h
    · exact Or.inr (Or.inl (by rw [h]; rfl))
    · exact Or.inr (Or.inr (by rw [h]; rfl))
  unfold meshPasses
  rw [if_pos hg]
  exact Bool.false_ne_true

/-- C5: the code at the failing input. An object whose model has no sub-mesh
is reported to contain every point: the loop of `IsPointInside` runs zero
times and line 102 returns true. -/
theorem IsPointInside_without_submesh (E : FloatOps F) (point : Vector3 F) (object : Object F) :
    IsPointInside E point { object with model := ⟨[]⟩ } = true :=
  rfl

end Theorems

/-- C3, witness: vertex 1 of the triangle. -/
theorem GetBoundingBox_contains_witness :
    GetBoundingBox exactOps builtTriangle = ⟨⟨0, 0, 0⟩, ⟨1, 0, 1⟩⟩ ∧
    rotate exactOps (readVec exactOps triangle.vertices 1) builtTriangle.rotationAxis
      (exactOps.mul builtTriangle.rotationAngle exactOps.DEG2RAD) = ⟨1, 0, 0⟩ ∧
    (GetBoundingBox exactOps builtTriangle).min.x ≤ (GetBoundingBox exactOps builtTriangle).max.x :=
  ⟨by decide!, by decide!,
    (GetBoundingBox_contains exactOps builtTriangle triangle (by decide!) 1 (by decide)).2.2.2.1⟩

/-- C4, witness: the triangle object and the origin. -/
theorem IsPointInside_iff_witness :
    (∀ mesh ∈ builtTriangle.model.meshes,
      0 < mesh.vertexCount ∧ mesh.vertices.isSome = true ∧ mesh.normals.isSome = true) ∧
    IsPointInside exactOps ⟨0, 0, 0⟩ builtTriangle = true ∧
    (IsPointInside exactOps ⟨0, 0, 0⟩ builtTriangle = true ↔
      ∀ mesh ∈ builtTriangle.model.meshes, ∀ j : Nat, (j : Int) < mesh.vertexCount →
        Vector3DotProduct exactOps
          (rotate exactOps (readVec exactOps mesh.normals j) builtTriangle.rotationAxis
            (exactOps.mul builtTriangle.rotationAngle exactOps.DEG2RAD))
          (Vector3Subtract exactOps (Vector3Subtract exactOps ⟨0, 0, 0⟩ builtTriangle.pos)
            (rotate exactOps (readVec exactOps mesh.vertices j) builtTriangle.rotationAxis
              (exactOps.mul builtTriangle.rotationAngle exactOps.DEG2RAD))) ≥
          exactOps.neg exactOps.EPSILON) :=
  ⟨by decide!, by decide!, IsPointInside_iff exactOps ⟨0, 0, 0⟩ builtTriangle (by decide!)⟩

/-! ## Theorems: the loop that draws the sampled points -/

theorem nextIndex_even (i : Int) (h : i % 2 = 0) : nextIndex i % 2 = 0 := by
  unfold nextIndex
  omega

theorem toSizeT_lt_drawBound_zero (i : Int) (h : i % 2 = 0) : toSizeT i < drawBound 0 := by
  unfold toSizeT drawBound
  norm_num
  omega

theorem drawLoop_zero_of_even (fuel : Nat) (i : Int) (h : i % 2 = 0) :
    drawLoop 0 fuel i = none := by
  induction fuel generalizing i with
  | zero => rfl
  | succ n ih =>
    rw [drawLoop]
    rw [if_pos (toSizeT_lt_drawBound_zero i h), ih _ (nextIndex_even i h)]
    rfl

/-- C10: the code at the failing input. With no sampled point,
`points.size()-1` wraps to `2^64 - 1`: the first iteration reads `points[0]` of
the empty vector, and the loop is still running after any number of
iterations. -/
theorem drawLoop_empty_points :
    drawBound 0 = 2 ^ 64 - 1 ∧ drawReads 0 1 0 = [0] ∧ ∀ fuel : Nat, drawLoop 0 fuel 0 = none :=
  ⟨by decide, by decide, fun fuel => drawLoop_zero_of_even fuel 0 (by decide)⟩

/-- With at least one sampled point (and fewer than `2^31`) the loop exits and
has read only indices below `points.size()`. -/
theorem drawLoop_nonempty_points (size : Nat) (h0 : 0 < size) (h1 : size < 2 ^ 31) :
    ∃ fuel reads, drawLoop size fuel 0 = some reads ∧ ∀ r ∈ reads, r < size := by
  have hb : drawBound size = size - 1 := by
    unfold drawBound
    norm_num at h1 ⊢
    omega
  have key : ∀ d i : Nat, size ≤ i + d → i ≤ size →
      ∃ fuel reads, drawLoop size fuel (i : Int) = some reads ∧ ∀ r ∈ reads, r < size := by
    intro d
    induction d using Nat.strong_induction_on with
    | _ d ih =>
      intro i hd hi
      have ht : toSizeT (i : Int) = i := by
        unfold toSizeT
        norm_num at h1 ⊢
        omega
      by_cases hc : i < size - 1
      · have hn : nextIndex (i : Int) = ((i + 2 : Nat) : Int) := by
          unfold nextIndex
          norm_num at h1 ⊢
          omega
        obtain ⟨fuel, reads, hr, hlt⟩ := ih (d - 2) (by omega) (i + 2) (by omega) (by omega)
        refine ⟨fuel + 1, i :: reads, ?_, ?_⟩
        · rw [drawLoop, ht, hb, if_pos hc, hn, hr]
          rfl
        · intro r hr
          rcases List.mem_cons.mp hr with rfl | hr
          · omega
          · exact hlt r hr
      · refine ⟨1, [], ?_, by simp⟩
        rw [drawLoop, ht, hb, if_neg hc]
  simpa using key size 0 (by omega) (by omega)

/-! ## Theorems: the collision pass -/

section PassBasics
variable {F : Type}

theorem length_updateAt {α : Type} (l : List α) (i : Nat) (f : α → α) :
    (updateAt l i f).length = l.length := by
  unfold updateAt
  split <;> simp

theorem updateAt_lookup {α : Type} (l : List α) (i k : Nat) (f : α → α) :
    (updateAt l i f)[k]? = if k = i then (l[k]?).map f else l[k]? := by
  unfold updateAt
  split
  · next a ha =>
    have hlt : i < l.length := (List.getElem?_eq_some.mp ha).1
    rw [List.getElem?_set]
    by_cases h : k = i
    · subst h
      simp [hlt, ha]
    · have h2 : ¬ i = k := fun e => h e.symm
      simp [h, h2]
  · next ha =>
    by_cases h : k = i
    · subst h
      simp [ha]
    · simp [h]

theorem core_markIf (b : Bool) (o : Object F) : core (markIf b o) = core o := by
  cases b <;> rfl

theorem markIf_markIf (b c : Bool) (o : Object F) :
    markIf c (markIf b o) = markIf (b || c) o := by
  cases b <;> cases c <;> rfl

theorem markIf_false (o : Object F) : markIf false o = o := rfl

theorem markIf_true (o : Object F) : markIf true o = markColliding o := rfl

theorem markColliding_markColliding (o : Object F) :
    markColliding (markColliding o) = markColliding o := rfl

/-- An object whose core is known. -/
theorem exists_of_map_core {l : List (Object F)} {i : Nat} {o : Object F}
    (h : (l[i]?).map core = some (core o)) : ∃ o', l[i]? = some o' ∧ core o' = core o := by
  cases hl : l[i]? with
  | none => rw [hl] at h; cases h
  | some o' =>
    rw [hl] at h
    exact ⟨o', rfl, Option.some.inj h⟩

theorem map_core_map_markIf (b : Bool) (x : Option (Object F)) :
    (x.map (markIf b)).map core = x.map core := by
  cases x with
  | none => rfl
  | some o => simp [core_markIf]

theorem map_markIf_map_markIf (b c : Bool) (x : Option (Object F)) :
    (x.map (markIf b)).map (markIf c) = x.map (markIf (b || c)) := by
  cases x with
  | none => rfl
  | some o => simp [markIf_markIf]

theorem map_markIf_false (x : Option (Object F)) : x.map (markIf false) = x := by
  cases x <;> rfl

/-- Two lists related index by index have the same length. -/
theorem length_eq_of_pointwise {α : Type} (l l' : List α) (f : Nat → α → α)
    (h : ∀ k, l'[k]? = (l[k]?).map (f k)) : l'.length = l.length := by
  have h1 : ¬ l.length < l'.length := by
    intro hlt
    have := h l.length
    rw [List.getElem?_eq_none (le_refl _), List.getElem?_eq_getElem hlt] at this
    cases this
  have h2 : ¬ l'.length < l.length := by
    intro hlt
    have := h l'.length
    rw [List.getElem?_eq_none (le_refl _), List.getElem?_eq_getElem hlt] at this
    cases this
  omega

theorem resetFlags_eq_map_core (objs : List (Object F)) : resetFlags objs = objs.map core := rfl

theorem markIf_colliding (b : Bool) (o : Object F) :
    (markIf b o).colliding = (b || o.colliding) := by
  cases b <;> rfl

theorem markIf_collider (b : Bool) (o : Object F) : (markIf b o).collider = o.collider := by
  cases b <;> rfl

theorem markIf_needUpdate (b : Bool) (o : Object F) :
    (markIf b o).needUpdate = o.needUpdate := by
  cases b <;> rfl

theorem markIf_model (b : Bool) (o : Object F) : (markIf b o).model = o.model := by
  cases b <;> rfl

theorem markIf_rotationAxis (b : Bool) (o : Object F) :
    (markIf b o).rotationAxis = o.rotationAxis := by
  cases b <;> rfl

theorem markIf_rotationAngle (b : Bool) (o : Object F) :
    (markIf b o).rotationAngle = o.rotationAngle := by
  cases b <;> rfl

theorem geom_markIf (b : Bool) (o : Object F) : geom (markIf b o) = geom o := by
  cases b <;> rfl

theorem geom_core (o : Object F) : geom (core o) = geom o := rfl

theorem samplePoint_eq (E : FloatOps F) (pos : Vector3 F) (x y z : Int) :
    samplePoint E pos x y z =
      ⟨E.ofInt (E.toInt (E.add (E.ofInt x) pos.x)),
       E.ofInt (E.toInt (E.add (E.ofInt y) pos.y)),
       E.ofInt (E.toInt (E.add (E.ofInt z) pos.z))⟩ := rfl

/-- A fold over a `flatMap` is a fold of folds. -/
theorem foldl_flatMap_eq {α β σ : Type} (f : σ → β → σ) (g : α → List β) (l : List α) (s : σ) :
    (l.flatMap g).foldl f s = l.foldl (fun s a => (g a).foldl f s) s := by
  induction l generalizing s with
  | nil => rfl
  | cons a l ih => rw [List.flatMap_cons, List.foldl_append, ih, List.foldl_cons]

end PassBasics

section PassLemmas
variable {F : Type} [LinearOrder F]

theorem core_rebuild (E : FloatOps F) (o : Object F) :
    core (rebuild E o) = rebuild E (core o) := by
  unfold rebuild
  by_cases h : o.needUpdate = true
  · have h2 : (core o).needUpdate = true := h
    rw [if_pos h, if_pos h2]
    rfl
  · have h2 : ¬ (core o).needUpdate = true := h
    rw [if_neg h, if_neg h2]

theorem rebuild_markIf (E : FloatOps F) (b : Bool) (o : Object F) :
    rebuild E (markIf b o) = markIf b (rebuild E o) := by
  cases b
  · rfl
  · show rebuild E (markColliding o) = markColliding (rebuild E o)
    unfold rebuild
    by_cases h : o.needUpdate = true
    · have h2 : (markColliding o).needUpdate = true := h
      rw [if_pos h, if_pos h2]
      rfl
    · have h2 : ¬ (markColliding o).needUpdate = true := h
      rw [if_neg h, if_neg h2]

theorem sampleHit_core (E : FloatOps F) (oi oj : Object F) (t : Int × Int × Int) :
    sampleHit E oi oj t = sampleHit E (core oi) (core oj) t := rfl

theorem pairFlag_core (E : FloatOps F) (oi oj : Object F) :
    pairFlag E oi oj = pairFlag E (core oi) (core oj) := rfl

theorem pairHits_core (E : FloatOps F) (oi oj : Object F) :
    pairHits E oi oj = pairHits E (core oi) (core oj) := rfl

/-- One run of lines 262-277. -/
theorem sampleStep_spec (E : FloatOps F) (i j : Nat) (s : PassState F) (oi oj : Object F)
    (t : Int × Int × Int)
    (hi : (s.objects[i]?).map core = some (core oi))
    (hj : (s.objects[j]?).map core = some (core oj)) :
    (∀ k, (sampleStep E i j t.1 t.2.1 s t.2.2).objects[k]? =
      (s.objects[k]?).map (markIf ((k == i || k == j) && sampleHit E oi oj t))) ∧
    (sampleStep E i j t.1 t.2.1 s t.2.2).collisions =
      s.collisions + (if sampleHit E oi oj t = true then 1 else 0) := by
  obtain ⟨oi', hi', hci⟩ := exists_of_map_core hi
  obtain ⟨oj', hj', hcj⟩ := exists_of_map_core hj
  have hhit : sampleHit E oi oj t = sampleHit E oi' oj' t := by
    rw [sampleHit_core E oi oj, sampleHit_core E oi' oj', hci, hcj]
  unfold sampleStep
  simp only [hi', hj']
  by_cases hh : sampleHit E oi' oj' t = true
  · have hh2 : (IsPointInside E (samplePoint E oi'.pos t.1 t.2.1 t.2.2) oi' &&
        IsPointInside E (samplePoint E oi'.pos t.1 t.2.1 t.2.2) oj') = true := hh
    rw [if_pos hh2, hhit, hh]
    refine ⟨fun k => ?_, by simp⟩
    simp only [updateAt_lookup]
    cases hk : s.objects[k]? with
    | none => simp
    | some o =>
      by_cases hki : k = i
      · subst hki
        by_cases hkj : k = j
        · subst hkj
          simp [markIf_true, markColliding_markColliding]
        · simp [hkj, markIf_true]
      · by_cases hkj : k = j
        · subst hkj
          simp [hki, markIf_true]
        · have hb : (k == i || k == j) = false := by simp [hki, hkj]
          simp [hki, hkj, hb, markIf_false]
  · have hh2 : ¬ (IsPointInside E (samplePoint E oi'.pos t.1 t.2.1 t.2.2) oi' &&
        IsPointInside E (samplePoint E oi'.pos t.1 t.2.1 t.2.2) oj') = true := hh
    rw [if_neg hh2, hhit]
    have hf : sampleHit E oi' oj' t = false := by simpa using hh
    rw [hf]
    refine ⟨fun k => ?_, by simp⟩
    cases hk : s.objects[k]? <;> simp [markIf]

/-- The loop over the offsets, from any state in which the cores of objects
`i` and `j` are those of `oi` and `oj`. -/
theorem foldl_sampleStep_spec (E : FloatOps F) (i j : Nat) (oi oj : Object F)
    (ts : List (Int × Int × Int)) (s : PassState F)
    (hi : (s.objects[i]?).map core = some (core oi))
    (hj : (s.objects[j]?).map core = some (core oj)) :
    (∀ k, (ts.foldl (fun s t => sampleStep E i j t.1 t.2.1 s t.2.2) s).objects[k]? =
      (s.objects[k]?).map (markIf ((k == i || k == j) && ts.any (sampleHit E oi oj)))) ∧
    (ts.foldl (fun s t => sampleStep E i j t.1 t.2.1 s t.2.2) s).collisions =
      s.collisions + ts.countP (sampleHit E oi oj) := by
  induction ts generalizing s with
  | nil =>
    refine ⟨fun k => ?_, rfl⟩
    simp [map_markIf_false]
  | cons t ts ih =>
    obtain ⟨h1, h2⟩ := sampleStep_spec E i j s oi oj t hi hj
    have hi1 : ((sampleStep E i j t.1 t.2.1 s t.2.2).objects[i]?).map core = some (core oi) := by
      rw [h1 i, map_core_map_markIf, hi]
    have hj1 : ((sampleStep E i j t.1 t.2.1 s t.2.2).objects[j]?).map core = some (core oj) := by
      rw [h1 j, map_core_map_markIf, hj]
    obtain ⟨h3, h4⟩ := ih _ hi1 hj1
    rw [List.foldl_cons]
    refine ⟨fun k => ?_, ?_⟩
    · rw [h3 k, h1 k, map_markIf_map_markIf, List.any_cons, Bool.and_or_distrib_left]
    · rw [h4, h2, List.countP_cons]
      omega

/-- The three grid loops visit the offsets of `gridTriples` in order. -/
theorem gridLoops_eq (E : FloatOps F) (i j : Nat) (s : PassState F) :
    gridOffsets.foldl (fun sx x =>
      gridOffsets.foldl (fun sy y =>
        gridOffsets.foldl (sampleStep E i j x y) sy) sx) s =
    gridTriples.foldl (fun s t => sampleStep E i j t.1 t.2.1 s t.2.2) s := by
  unfold gridTriples
  rw [foldl_flatMap_eq]
  refine List.foldl_ext _ _ _ (fun sx x _ => ?_)
  rw [foldl_flatMap_eq]
  refine List.foldl_ext _ _ _ (fun sy y _ => ?_)
  rw [List.foldl_map]

/-- One run of lines 254-281. -/
theorem pairStep_spec (E : FloatOps F) (i j : Nat) (s : PassState F) (oi oj : Object F)
    (hi : (s.objects[i]?).map core = some (core oi))
    (hj : (s.objects[j]?).map core = some (core oj)) :
    (∀ k, (pairStep E i s j).objects[k]? =
      (s.objects[k]?).map (markIf ((k == i || k == j) && pairFlag E oi oj))) ∧
    (pairStep E i s j).collisions = s.collisions + pairHits E oi oj := by
  obtain ⟨oi', hi', hci⟩ := exists_of_map_core hi
  obtain ⟨oj', hj', hcj⟩ := exists_of_map_core hj
  have hbb : BoundingBoxCollision E oj'.collider oj'.pos oi'.collider oi'.pos =
      BoundingBoxCollision E oj.collider oj.pos oi.collider oi.pos := by
    show BoundingBoxCollision E (core oj').collider (core oj').pos (core oi').collider
      (core oi').pos = _
    rw [hci, hcj]
    rfl
  unfold pairStep
  simp only [hi', hj']
  rw [hbb]
  by_cases hb : BoundingBoxCollision E oj.collider oj.pos oi.collider oi.pos = true
  · rw [if_pos hb, gridLoops_eq]
    have := foldl_sampleStep_spec E i j oi oj gridTriples s hi hj
    simpa [pairFlag, pairHits, hb] using this
  · rw [if_neg hb]
    have hf : BoundingBoxCollision E oj.collider oj.pos oi.collider oi.pos = false := by
      simpa using hb
    refine ⟨fun k => ?_, ?_⟩
    · simp [pairFlag, hf, map_markIf_false]
    · simp [pairHits, hf]

/-- The loop of line 252 over the indices `js`, when each run of its body is
described by `fl` and `ht` from every state with the same cores. -/
theorem foldl_pairStep_spec (E : FloatOps F) (i : Nat) (js : List Nat) (fl : Nat → Bool)
    (ht : Nat → Nat) (s0 : PassState F)
    (hstep : ∀ s : PassState F,
      (∀ k : Nat, (s.objects[k]?).map core = (s0.objects[k]?).map core) → ∀ j ∈ js,
        (∀ k, (pairStep E i s j).objects[k]? =
          (s.objects[k]?).map (markIf ((k == i || k == j) && fl j))) ∧
        (pairStep E i s j).collisions = s.collisions + ht j) :
    (∀ k, (js.foldl (pairStep E i) s0).objects[k]? =
      (s0.objects[k]?).map (markIf (js.any fun j => (k == i || k == j) && fl j))) ∧
    (js.foldl (pairStep E i) s0).collisions = s0.collisions + (js.map ht).sum := by
  induction js generalizing s0 with
  | nil =>
    refine ⟨fun k => ?_, rfl⟩
    simp [map_markIf_false]
  | cons j js ih =>
    obtain ⟨h1, h2⟩ := hstep s0 (fun _ => rfl) j (List.mem_cons_self _ _)
    have hcore : ∀ k : Nat, ((pairStep E i s0 j).objects[k]?).map core = (s0.objects[k]?).map core := by
      intro k
      rw [h1 k, map_core_map_markIf]
    have hstep' : ∀ s : PassState F,
        (∀ k : Nat, (s.objects[k]?).map core = ((pairStep E i s0 j).objects[k]?).map core) →
        ∀ j' ∈ js,
          (∀ k, (pairStep E i s j').objects[k]? =
            (s.objects[k]?).map (markIf ((k == i || k == j') && fl j'))) ∧
          (pairStep E i s j').collisions = s.collisions + ht j' := by
      intro s hs j' hj'
      exact hstep s (fun k => by rw [hs k, hcore k]) j' (List.mem_cons_of_mem _ hj')
    obtain ⟨h3, h4⟩ := ih (pairStep E i s0 j) hstep'
    rw [List.foldl_cons]
    refine ⟨fun k => ?_, ?_⟩
    · rw [h3 k, h1 k, map_markIf_map_markIf, List.any_cons]
    · rw [h4, h2, List.map_cons, List.sum_cons]
      omega

theorem doneFlag_succ (E : FloatOps F) (objs : List (Object F)) (a k : Nat) :
    doneFlag E objs (a + 1) k = (doneFlag E objs a k || rowFlag E objs a k) := by
  unfold doneFlag
  rw [List.range_succ, List.any_append]
  simp

theorem doneHits_succ (E : FloatOps F) (objs : List (Object F)) (a : Nat) :
    doneHits E objs (a + 1) = doneHits E objs a + rowHits E objs a := by
  unfold doneHits
  rw [List.range_succ, List.map_append, List.sum_append]
  simp

/-- The state after the first `a` iterations of the outer loop: the first `a`
objects have gone through lines 246-250, and object `k` is marked iff one of
the pairs handled so far marked it. -/
theorem foldl_outerStep_spec (E : FloatOps F) (objs : List (Object F)) (a : Nat)
    (ha : a ≤ objs.length) :
    (∀ k : Nat, ((List.range a).foldl (outerStep E) ⟨objs, 0, []⟩).objects[k]? =
      (objs[k]?).map (fun o =>
        markIf (doneFlag E objs a k) (if k < a then rebuild E o else o))) ∧
    ((List.range a).foldl (outerStep E) ⟨objs, 0, []⟩).collisions = doneHits E objs a := by
  induction a with
  | zero =>
    refine ⟨fun k => ?_, rfl⟩
    cases hk : objs[k]? <;> simp [doneFlag, markIf_false, hk]
  | succ a ih =>
    obtain ⟨h1, h2⟩ := ih (by omega)
    rw [List.range_succ, List.foldl_append, List.foldl_cons, List.foldl_nil]
    generalize (List.range a).foldl (outerStep E) ⟨objs, 0, []⟩ = s at h1 h2 ⊢
    have hlen : s.objects.length = objs.length :=
      length_eq_of_pointwise objs s.objects
        (fun k o => markIf (doneFlag E objs a k) (if k < a then rebuild E o else o)) h1
    have hlt : a < objs.length := by omega
    have hoa : objs[a]? = some objs[a] := List.getElem?_eq_getElem hlt
    have hs1 : ∀ k : Nat, (updateAt s.objects a (rebuild E))[k]? =
        (objs[k]?).map (fun o =>
          markIf (doneFlag E objs a k) (if k < a + 1 then rebuild E o else o)) := by
      intro k
      rw [updateAt_lookup, h1 k]
      cases hk : objs[k]? with
      | none => simp
      | some o =>
        by_cases hka : k = a
        · subst hka
          simp [rebuild_markIf]
        · by_cases hlt2 : k < a
          · have : k < a + 1 := by omega
            simp [hka, hlt2, this]
          · have : ¬ k < a + 1 := by omega
            simp [hka, hlt2, this]
    have hstep : ∀ s' : PassState F,
        (∀ k : Nat, (s'.objects[k]?).map core =
          ((updateAt s.objects a (rebuild E))[k]?).map core) →
        ∀ j ∈ partners objs.length a,
          (∀ k, (pairStep E a s' j).objects[k]? =
            (s'.objects[k]?).map (markIf ((k == a || k == j) && pairFlagAt E objs a j))) ∧
          (pairStep E a s' j).collisions = s'.collisions + pairHitsAt E objs a j := by
      intro s' hs' j hj
      have hj2 : a + 1 ≤ j ∧ j < objs.length := by
        have := List.mem_range'_1.mp hj
        omega
      have hoj : objs[j]? = some objs[j] := List.getElem?_eq_getElem hj2.2
      have hi : (s'.objects[a]?).map core = some (core (rebuild E objs[a])) := by
        rw [hs' a, hs1 a, hoa]
        simp [core_markIf]
      have hjc : (s'.objects[j]?).map core = some (core objs[j]) := by
        have : ¬ j < a + 1 := by omega
        rw [hs' j, hs1 j, hoj]
        simp [core_markIf, this]
      have := pairStep_spec E a j s' (rebuild E objs[a]) objs[j] hi hjc
      have e1 : pairFlagAt E objs a j = pairFlag E (rebuild E objs[a]) objs[j] := by
        unfold pairFlagAt
        rw [hoa, hoj]
      have e2 : pairHitsAt E objs a j = pairHits E (rebuild E objs[a]) objs[j] := by
        unfold pairHitsAt
        rw [hoa, hoj]
      rw [e1, e2]
      exact this
    obtain ⟨h3, h4⟩ := foldl_pairStep_spec E a (partners objs.length a) (pairFlagAt E objs a)
      (pairHitsAt E objs a) ⟨updateAt s.objects a (rebuild E), s.collisions, s.points⟩ hstep
    have hout : outerStep E s a = (partners objs.length a).foldl (pairStep E a)
        ⟨updateAt s.objects a (rebuild E), s.collisions, s.points⟩ := by
      unfold outerStep partners
      simp only [length_updateAt, hlen]
    rw [hout]
    refine ⟨fun k => ?_, ?_⟩
    · rw [h3 k]
      show Option.map _ ((updateAt s.objects a (rebuild E))[k]?) = _
      rw [hs1 k, Option.map_map]
      congr 1
      funext o
      simp only [Function.comp, markIf_markIf, doneFlag_succ]
      rfl
    · rw [h4, doneHits_succ]
      show s.collisions + _ = _
      rw [h2]
      rfl

/-- The whole pass: every object has gone through lines 246-250, and object
`k` is marked iff some pair marked it. -/
theorem collisionPass_spec (E : FloatOps F) (objs : List (Object F)) :
    (∀ k : Nat, (collisionPass E objs).objects[k]? =
      (objs[k]?).map (fun o => markIf (doneFlag E objs objs.length k) (rebuild E o))) ∧
    (collisionPass E objs).collisions = doneHits E objs objs.length := by
  obtain ⟨h1, h2⟩ := foldl_outerStep_spec E objs objs.length (le_refl _)
  refine ⟨fun k => ?_, h2⟩
  show ((List.range objs.length).foldl (outerStep E) ⟨objs, 0, []⟩).objects[k]? = _
  rw [h1 k]
  cases hk : objs[k]? with
  | none => rfl
  | some o =>
    have : k < objs.length := (List.getElem?_eq_some.mp hk).1
    simp [this]

theorem rebuild_pos (E : FloatOps F) (o : Object F) : (rebuild E o).pos = o.pos := by
  unfold rebuild
  split <;> rfl

theorem rebuild_model (E : FloatOps F) (o : Object F) : (rebuild E o).model = o.model := by
  unfold rebuild
  split <;> rfl

theorem rebuild_rotationAxis (E : FloatOps F) (o : Object F) :
    (rebuild E o).rotationAxis = o.rotationAxis := by
  unfold rebuild
  split <;> rfl

theorem rebuild_rotationAngle (E : FloatOps F) (o : Object F) :
    (rebuild E o).rotationAngle = o.rotationAngle := by
  unfold rebuild
  split <;> rfl

theorem rebuild_colliding (E : FloatOps F) (o : Object F) :
    (rebuild E o).colliding = o.colliding := by
  unfold rebuild
  split <;> rfl

theorem rebuild_needUpdate (E : FloatOps F) (o : Object F) :
    (rebuild E o).needUpdate = false := by
  unfold rebuild
  split
  · rfl
  · next h => simpa using h

theorem rebuild_collider (E : FloatOps F) (o : Object F) :
    (rebuild E o).collider = if o.needUpdate then GetBoundingBox E o else o.collider := by
  unfold rebuild
  split <;> rfl

/-- The function `GetBoundingBox` reads the model, the axis and the angle only. -/
theorem GetBoundingBox_congr (E : FloatOps F) (o o' : Object F) (hm : o'.model = o.model)
    (hx : o'.rotationAxis = o.rotationAxis) (ha : o'.rotationAngle = o.rotationAngle) :
    GetBoundingBox E o' = GetBoundingBox E o := by
  have hv : accumulateVertex E o' = accumulateVertex E o := by
    funext mesh box j
    simp only [accumulateVertex, hx, ha]
  have hmesh : accumulateMesh E o' = accumulateMesh E o := by
    funext box mesh
    simp only [accumulateMesh, hv]
  unfold GetBoundingBox
  rw [hm, hmesh]

/-- The function `IsPointInside` reads the model, the position, the axis and the angle only. -/
theorem IsPointInside_congr (E : FloatOps F) (p : Vector3 F) (o o' : Object F)
    (hm : o'.model = o.model) (hp : o'.pos = o.pos)
    (hx : o'.rotationAxis = o.rotationAxis) (ha : o'.rotationAngle = o.rotationAngle) :
    IsPointInside E p o' = IsPointInside E p o := by
  have hd : halfSpaceDot E o' = halfSpaceDot E o := by
    funext lp mesh j
    simp only [halfSpaceDot, hx, ha]
  have hmp : meshPasses E o' = meshPasses E o := by
    funext lp mesh
    simp only [meshPasses, hd]
  unfold IsPointInside
  rw [hm, hp, hmp]

theorem IsPointInside_rebuild (E : FloatOps F) (p : Vector3 F) (o : Object F) :
    IsPointInside E p (rebuild E o) = IsPointInside E p o :=
  IsPointInside_congr E p o (rebuild E o) (rebuild_model E o) (rebuild_pos E o)
    (rebuild_rotationAxis E o) (rebuild_rotationAngle E o)

theorem mem_gridTriples (t : Int × Int × Int) :
    t ∈ gridTriples ↔ t.1 ∈ gridOffsets ∧ t.2.1 ∈ gridOffsets ∧ t.2.2 ∈ gridOffsets := by
  obtain ⟨x, y, z⟩ := t
  unfold gridTriples
  simp only [List.mem_flatMap, List.mem_map, Prod.mk.injEq]
  constructor
  · rintro ⟨a, ha, b, hb, c, hc, rfl, rfl, rfl⟩
    exact ⟨ha, hb, hc⟩
  · rintro ⟨ha, hb, hc⟩
    exact ⟨x, ha, y, hb, z, hc, rfl, rfl, rfl⟩

theorem pairFlagAt_resetFlags (E : FloatOps F) (objs : List (Object F)) (i j : Nat) :
    pairFlagAt E (resetFlags objs) i j = pairFlagAt E objs i j := by
  unfold pairFlagAt
  rw [resetFlags_eq_map_core, List.getElem?_map, List.getElem?_map]
  cases objs[i]? with
  | none => rfl
  | some oi =>
    cases objs[j]? with
    | none => rfl
    | some oj =>
      show pairFlag E (rebuild E (core oi)) (core oj) = pairFlag E (rebuild E oi) oj
      rw [pairFlag_core E (rebuild E oi) oj, core_rebuild]

theorem pairHitsAt_resetFlags (E : FloatOps F) (objs : List (Object F)) (i j : Nat) :
    pairHitsAt E (resetFlags objs) i j = pairHitsAt E objs i j := by
  unfold pairHitsAt
  rw [resetFlags_eq_map_core, List.getElem?_map, List.getElem?_map]
  cases objs[i]? with
  | none => rfl
  | some oi =>
    cases objs[j]? with
    | none => rfl
    | some oj =>
      show pairHits E (rebuild E (core oi)) (core oj) = pairHits E (rebuild E oi) oj
      rw [pairHits_core E (rebuild E oi) oj, core_rebuild]

theorem doneFlag_resetFlags (E : FloatOps F) (objs : List (Object F)) (a k : Nat) :
    doneFlag E (resetFlags objs) a k = doneFlag E objs a k := by
  have hl : (resetFlags objs).length = objs.length := by simp [resetFlags]
  unfold doneFlag rowFlag
  rw [hl]
  simp only [pairFlagAt_resetFlags]

theorem doneHits_resetFlags (E : FloatOps F) (objs : List (Object F)) (a : Nat) :
    doneHits E (resetFlags objs) a = doneHits E objs a := by
  have h : pairHitsAt E (resetFlags objs) = pairHitsAt E objs := by
    funext i j
    exact pairHitsAt_resetFlags E objs i j
  have hl : (resetFlags objs).length = objs.length := by simp [resetFlags]
  unfold doneHits rowHits
  rw [hl, h]

theorem doneFlag_iff (E : FloatOps F) (objs : List (Object F)) (k : Nat) :
    doneFlag E objs objs.length k = true ↔
      ∃ i j, i < j ∧ j < objs.length ∧ (k = i ∨ k = j) ∧ pairFlagAt E objs i j = true := by
  unfold doneFlag rowFlag partners
  simp only [List.any_eq_true, List.mem_range, List.mem_range'_1, Bool.and_eq_true,
    Bool.or_eq_true, beq_iff_eq]
  constructor
  · rintro ⟨i, hi, j, ⟨hj1, hj2⟩, hk, hp⟩
    exact ⟨i, j, by omega, by omega, hk, hp⟩
  · rintro ⟨i, j, hij, hj, hk, hp⟩
    exact ⟨i, by omega, j, ⟨by omega, by omega⟩, hk, hp⟩

/-- The object at index `k` after a frame without input. -/
theorem runCollisionPass_lookup (E : FloatOps F) (objs : List (Object F)) (k : Nat) :
    (runCollisionPass E objs).objects[k]? =
      (objs[k]?).map (fun o => markIf (doneFlag E objs objs.length k) (rebuild E (core o))) := by
  unfold runCollisionPass
  rw [(collisionPass_spec E (resetFlags objs)).1 k, doneFlag_resetFlags]
  have hl : (resetFlags objs).length = objs.length := by simp [resetFlags]
  rw [hl, resetFlags_eq_map_core, List.getElem?_map, Option.map_map]
  rfl

/-- The object at index `k` after the pass. -/
theorem collisionPass_lookup (E : FloatOps F) (objs : List (Object F)) (k : Nat)
    (o' : Object F) (h : (collisionPass E objs).objects[k]? = some o') :
    ∃ o, objs[k]? = some o ∧ o' = markIf (doneFlag E objs objs.length k) (rebuild E o) := by
  rw [(collisionPass_spec E objs).1 k] at h
  cases hok : objs[k]? with
  | none => rw [hok] at h; cases h
  | some o =>
    rw [hok] at h
    exact ⟨o, rfl, (Option.some.inj h).symm⟩

/-- C9: the pass keeps the number of objects; afterwards every dirty flag is
clear; an object whose flag was set holds the box `GetBoundingBox` gives for
it, an object whose flag was clear holds the box it had, and the rotation the
box depends on is unchanged; hence, if every object with a clear flag had the
box of its rotation before the pass, every object has it after the pass. -/
theorem collisionPass_boxes (E : FloatOps F) (objs : List (Object F)) :
    (collisionPass E objs).objects.length = objs.length ∧
    (∀ o' ∈ (collisionPass E objs).objects, o'.needUpdate = false) ∧
    (∀ (k : Nat) (o o' : Object F), objs[k]? = some o →
      (collisionPass E objs).objects[k]? = some o' →
        (o.needUpdate = true → o'.collider = GetBoundingBox E o') ∧
        (o.needUpdate = false → o'.collider = o.collider) ∧
        GetBoundingBox E o' = GetBoundingBox E o) ∧
    ((∀ o ∈ objs, o.needUpdate = false → o.collider = GetBoundingBox E o) →
      ∀ o' ∈ (collisionPass E objs).objects,
        o'.needUpdate = false ∧ o'.collider = GetBoundingBox E o') := by
  have hgb : ∀ (b : Bool) (o : Object F),
      GetBoundingBox E (markIf b (rebuild E o)) = GetBoundingBox E o := by
    intro b o
    apply GetBoundingBox_congr
    · rw [markIf_model, rebuild_model]
    · rw [markIf_rotationAxis, rebuild_rotationAxis]
    · rw [markIf_rotationAngle, rebuild_rotationAngle]
  have hpoint : ∀ (k : Nat) (o o' : Object F), objs[k]? = some o →
      (collisionPass E objs).objects[k]? = some o' →
        o'.needUpdate = false ∧
        (o.needUpdate = true → o'.collider = GetBoundingBox E o') ∧
        (o.needUpdate = false → o'.collider = o.collider) ∧
        GetBoundingBox E o' = GetBoundingBox E o := by
    intro k o o' hk hk'
    obtain ⟨o2, ho2, rfl⟩ := collisionPass_lookup E objs k o' hk'
    rw [hk] at ho2
    cases ho2
    refine ⟨?_, ?_, ?_, hgb _ _⟩
    · rw [markIf_needUpdate, rebuild_needUpdate]
    · intro hd
      rw [hgb, markIf_collider, rebuild_collider, if_pos hd]
    · intro hd
      rw [markIf_collider, rebuild_collider, hd]
      rfl
  refine ⟨?_, ?_, ?_, ?_⟩
  · exact length_eq_of_pointwise objs _
      (fun k o => markIf (doneFlag E objs objs.length k) (rebuild E o))
      (collisionPass_spec E objs).1
  · intro o' ho'
    obtain ⟨k, hk⟩ := List.mem_iff_getElem?.mp ho'
    obtain ⟨o, ho, _⟩ := collisionPass_lookup E objs k o' hk
    exact (hpoint k o o' ho hk).1
  · intro k o o' hk hk'
    exact (hpoint k o o' hk hk').2
  · intro hinv o' ho'
    obtain ⟨k, hk⟩ := List.mem_iff_getElem?.mp ho'
    obtain ⟨o, ho, _⟩ := collisionPass_lookup E objs k o' hk
    obtain ⟨h1, h2, h3, h4⟩ := hpoint k o o' ho hk
    refine ⟨h1, ?_⟩
    by_cases hd : o.needUpdate = true
    · exact h2 hd
    · have hd2 : o.needUpdate = false := by simpa using hd
      rw [h3 hd2, h4]
      exact hinv o (List.mem_iff_getElem?.mpr ⟨k, ho⟩) hd2

/-! ### The sampled points -/

theorem sampleStep_points (E : FloatOps F) (i j : Nat) (s : PassState F) (oi oj : Object F)
    (t : Int × Int × Int)
    (hi : (s.objects[i]?).map core = some (core oi))
    (hj : (s.objects[j]?).map core = some (core oj)) :
    (sampleStep E i j t.1 t.2.1 s t.2.2).points =
      s.points ++ [samplePoint E oi.pos t.1 t.2.1 t.2.2] := by
  obtain ⟨oi', hi', hci⟩ := exists_of_map_core hi
  obtain ⟨oj', hj', _⟩ := exists_of_map_core hj
  have hp : oi'.pos = oi.pos := congrArg (fun o => o.pos) hci
  unfold sampleStep
  simp only [hi', hj', hp]
  split <;> rfl

theorem foldl_sampleStep_points (E : FloatOps F) (i j : Nat) (oi oj : Object F)
    (ts : List (Int × Int × Int)) (s : PassState F)
    (hi : (s.objects[i]?).map core = some (core oi))
    (hj : (s.objects[j]?).map core = some (core oj)) :
    (ts.foldl (fun s t => sampleStep E i j t.1 t.2.1 s t.2.2) s).points =
      s.points ++ ts.map (fun t => samplePoint E oi.pos t.1 t.2.1 t.2.2) := by
  induction ts generalizing s with
  | nil => simp
  | cons t ts ih =>
    obtain ⟨h1, _⟩ := sampleStep_spec E i j s oi oj t hi hj
    have hi1 : ((sampleStep E i j t.1 t.2.1 s t.2.2).objects[i]?).map core = some (core oi) := by
      rw [h1 i, map_core_map_markIf, hi]
    have hj1 : ((sampleStep E i j t.1 t.2.1 s t.2.2).objects[j]?).map core = some (core oj) := by
      rw [h1 j, map_core_map_markIf, hj]
    rw [List.foldl_cons, ih _ hi1 hj1, sampleStep_points E i j s oi oj t hi hj]
    simp

theorem pairStep_points (E : FloatOps F) (i j : Nat) (s : PassState F) (oi oj : Object F)
    (hi : (s.objects[i]?).map core = some (core oi))
    (hj : (s.objects[j]?).map core = some (core oj)) :
    (pairStep E i s j).points = s.points ++ pairPoints E oi oj := by
  obtain ⟨oi', hi', hci⟩ := exists_of_map_core hi
  obtain ⟨oj', hj', hcj⟩ := exists_of_map_core hj
  have hbb : BoundingBoxCollision E oj'.collider oj'.pos oi'.collider oi'.pos =
      BoundingBoxCollision E oj.collider oj.pos oi.collider oi.pos := by
    show BoundingBoxCollision E (core oj').collider (core oj').pos (core oi').collider
      (core oi').pos = _
    rw [hci, hcj]
    rfl
  unfold pairStep pairPoints
  simp only [hi', hj']
  rw [hbb]
  by_cases hb : BoundingBoxCollision E oj.collider oj.pos oi.collider oi.pos = true
  · rw [if_pos hb, if_pos hb, gridLoops_eq]
    exact foldl_sampleStep_points E i j oi oj gridTriples s hi hj
  · rw [if_neg hb, if_neg hb]
    simp

/-- The points of the loop of line 252 over the indices `js`, when each run of
its body keeps the cores and appends `pt j`. -/
theorem foldl_pairStep_points (E : FloatOps F) (i : Nat) (js : List Nat)
    (pt : Nat → List (Vector3 F)) (s0 : PassState F)
    (hstep : ∀ s : PassState F,
      (∀ k : Nat, (s.objects[k]?).map core = (s0.objects[k]?).map core) → ∀ j ∈ js,
        (∀ k : Nat, ((pairStep E i s j).objects[k]?).map core = (s.objects[k]?).map core) ∧
        (pairStep E i s j).points = s.points ++ pt j) :
    (js.foldl (pairStep E i) s0).points = s0.points ++ js.flatMap pt := by
  induction js generalizing s0 with
  | nil => simp
  | cons j js ih =>
    obtain ⟨h1, h2⟩ := hstep s0 (fun _ => rfl) j (List.mem_cons_self _ _)
    have hstep' : ∀ s : PassState F,
        (∀ k : Nat, (s.objects[k]?).map core = ((pairStep E i s0 j).objects[k]?).map core) →
        ∀ j' ∈ js,
          (∀ k : Nat, ((pairStep E i s j').objects[k]?).map core = (s.objects[k]?).map core) ∧
          (pairStep E i s j').points = s.points ++ pt j' := by
      intro s hs j' hj'
      exact hstep s (fun k => by rw [hs k, h1 k]) j' (List.mem_cons_of_mem _ hj')
    rw [List.foldl_cons, ih (pairStep E i s0 j) hstep', h2, List.flatMap_cons,
      List.append_assoc]

/-- The objects after line 250 of iteration `a`, and the cores the body of the
loop of line 252 then finds at `a` and at any `j > a`. -/
theorem row_facts (E : FloatOps F) (objs : List (Object F)) (a : Nat) (fk : Nat → Bool)
    (s : PassState F) (hlt : a < objs.length)
    (h1 : ∀ k : Nat, s.objects[k]? =
      (objs[k]?).map (fun o => markIf (fk k) (if k < a then rebuild E o else o))) :
    (∀ k : Nat, (updateAt s.objects a (rebuild E))[k]? =
      (objs[k]?).map (fun o => markIf (fk k) (if k < a + 1 then rebuild E o else o))) ∧
    (∀ s' : PassState F,
      (∀ k : Nat, (s'.objects[k]?).map core =
        ((updateAt s.objects a (rebuild E))[k]?).map core) →
      ∀ j : Nat, a < j → j < objs.length →
        ∃ oa oj, objs[a]? = some oa ∧ objs[j]? = some oj ∧
          (s'.objects[a]?).map core = some (core (rebuild E oa)) ∧
          (s'.objects[j]?).map core = some (core oj)) := by
  have hoa : objs[a]? = some objs[a] := List.getElem?_eq_getElem hlt
  have hs1 : ∀ k : Nat, (updateAt s.objects a (rebuild E))[k]? =
      (objs[k]?).map (fun o => markIf (fk k) (if k < a + 1 then rebuild E o else o)) := by
    intro k
    rw [updateAt_lookup, h1 k]
    cases hk : objs[k]? with
    | none => simp
    | some o =>
      by_cases hka : k = a
      · subst hka
        simp [rebuild_markIf]
      · by_cases hlt2 : k < a
        · have : k < a + 1 := by omega
          simp [hka, hlt2, this]
        · have : ¬ k < a + 1 := by omega
          simp [hka, hlt2, this]
  refine ⟨hs1, ?_⟩
  intro s' hs' j haj hj
  have hoj : objs[j]? = some objs[j] := List.getElem?_eq_getElem hj
  refine ⟨objs[a], objs[j], hoa, hoj, ?_, ?_⟩
  · rw [hs' a, hs1 a, hoa]
    simp [core_markIf]
  · have : ¬ j < a + 1 := by omega
    rw [hs' j, hs1 j, hoj]
    simp [core_markIf, this]

/-- The body of the outer loop, from a state with `n` objects. -/
theorem outerStep_eq (E : FloatOps F) (s : PassState F) (a n : Nat)
    (hlen : s.objects.length = n) :
    outerStep E s a = (partners n a).foldl (pairStep E a)
      ⟨updateAt s.objects a (rebuild E), s.collisions, s.points⟩ := by
  unfold outerStep partners
  simp only [length_updateAt, hlen]

theorem donePoints_succ (E : FloatOps F) (objs : List (Object F)) (a : Nat) :
    donePoints E objs (a + 1) = donePoints E objs a ++ rowPoints E objs a := by
  unfold donePoints
  rw [List.range_succ, List.flatMap_append]
  simp

/-- The points recorded by the first `a` iterations of the outer loop. -/
theorem foldl_outerStep_points (E : FloatOps F) (objs : List (Object F)) (a : Nat)
    (ha : a ≤ objs.length) :
    ((List.range a).foldl (outerStep E) ⟨objs, 0, []⟩).points = donePoints E objs a := by
  induction a with
  | zero => rfl
  | succ a ih =>
    have h2 := ih (by omega)
    obtain ⟨h1, _⟩ := foldl_outerStep_spec E objs a (by omega)
    rw [List.range_succ, List.foldl_append, List.foldl_cons, List.foldl_nil]
    generalize (List.range a).foldl (outerStep E) ⟨objs, 0, []⟩ = s at h1 h2 ⊢
    have hlen : s.objects.length = objs.length :=
      length_eq_of_pointwise objs s.objects
        (fun k o => markIf (doneFlag E objs a k) (if k < a then rebuild E o else o)) h1
    obtain ⟨_, hcores⟩ := row_facts E objs a (doneFlag E objs a) s (by omega) h1
    have hstep : ∀ s' : PassState F,
        (∀ k : Nat, (s'.objects[k]?).map core =
          ((updateAt s.objects a (rebuild E))[k]?).map core) →
        ∀ j ∈ partners objs.length a,
          (∀ k : Nat, ((pairStep E a s' j).objects[k]?).map core = (s'.objects[k]?).map core) ∧
          (pairStep E a s' j).points = s'.points ++ pairPointsAt E objs a j := by
      intro s' hs' j hj
      have hj2 : a < j ∧ j < objs.length := by
        have := List.mem_range'_1.mp hj
        omega
      obtain ⟨oa, oj, hoa, hoj, hi, hjc⟩ := hcores s' hs' j hj2.1 hj2.2
      refine ⟨fun k => ?_, ?_⟩
      · rw [(pairStep_spec E a j s' (rebuild E oa) oj hi hjc).1 k, map_core_map_markIf]
      · rw [pairStep_points E a j s' (rebuild E oa) oj hi hjc]
        unfold pairPointsAt
        rw [hoa, hoj]
    rw [outerStep_eq E s a objs.length hlen,
      foldl_pairStep_points E a (partners objs.length a) (pairPointsAt E objs a)
        ⟨updateAt s.objects a (rebuild E), s.collisions, s.points⟩ hstep,
      donePoints_succ]
    show s.points ++ _ = _
    rw [h2]
    rfl

/-- The points the pass records. -/
theorem collisionPass_points (E : FloatOps F) (objs : List (Object F)) :
    (collisionPass E objs).points = donePoints E objs objs.length :=
  foldl_outerStep_points E objs objs.length (le_refl _)

/-! ### The pass reads the geometry only -/

theorem pairFlag_geom (E : FloatOps F) (oi oj : Object F) :
    pairFlag E oi oj = pairFlag E (geom oi) (geom oj) := rfl

theorem pairHits_geom (E : FloatOps F) (oi oj : Object F) :
    pairHits E oi oj = pairHits E (geom oi) (geom oj) := rfl

theorem pairPoints_geom (E : FloatOps F) (oi oj : Object F) :
    pairPoints E oi oj = pairPoints E (geom oi) (geom oj) := rfl

/-- Lines 246-250 do not change the geometry of an object that is clean, or
dirty with a box that already is the box of its rotation. -/
theorem geom_rebuild_of_fresh (E : FloatOps F) (o : Object F)
    (h : o.needUpdate = true → o.collider = GetBoundingBox E o) :
    geom (rebuild E o) = geom o := by
  by_cases hd : o.needUpdate = true
  · have e : rebuild E o = { o with collider := GetBoundingBox E o, needUpdate := false } := by
      unfold rebuild
      rw [if_pos hd]
    rw [e, ← h hd]
    rfl
  · have e : rebuild E o = o := by
      unfold rebuild
      rw [if_neg hd]
    rw [e]

/-- On two scenes with the same geometry, both without a dirty object whose
box is stale, each pair passes the same tests. -/
theorem pairAt_congr (E : FloatOps F) (L L' : List (Object F))
    (hL : ∀ o ∈ L, o.needUpdate = true → o.collider = GetBoundingBox E o)
    (hL' : ∀ o ∈ L', o.needUpdate = true → o.collider = GetBoundingBox E o)
    (hg : ∀ k : Nat, (L[k]?).map geom = (L'[k]?).map geom) (i j : Nat) :
    pairFlagAt E L i j = pairFlagAt E L' i j ∧ pairHitsAt E L i j = pairHitsAt E L' i j ∧
    pairPointsAt E L i j = pairPointsAt E L' i j := by
  have hi := hg i
  have hj := hg j
  unfold pairFlagAt pairHitsAt pairPointsAt
  cases hoi : L[i]? with
  | none =>
    rw [hoi] at hi
    cases hoi' : L'[i]? with
    | none => exact ⟨rfl, rfl, rfl⟩
    | some oi' => rw [hoi'] at hi; cases hi
  | some oi =>
    rw [hoi] at hi
    cases hoi' : L'[i]? with
    | none => rw [hoi'] at hi; cases hi
    | some oi' =>
      rw [hoi'] at hi
      have hgi : geom oi = geom oi' := Option.some.inj hi
      cases hoj : L[j]? with
      | none =>
        rw [hoj] at hj
        cases hoj' : L'[j]? with
        | none => exact ⟨rfl, rfl, rfl⟩
        | some oj' => rw [hoj'] at hj; cases hj
      | some oj =>
        rw [hoj] at hj
        cases hoj' : L'[j]? with
        | none => rw [hoj'] at hj; cases hj
        | some oj' =>
          rw [hoj'] at hj
          have hgj : geom oj = geom oj' := Option.some.inj hj
          have e1 : geom (rebuild E oi) = geom (rebuild E oi') := by
            rw [geom_rebuild_of_fresh E oi (hL oi (List.mem_iff_getElem?.mpr ⟨i, hoi⟩)),
              geom_rebuild_of_fresh E oi' (hL' oi' (List.mem_iff_getElem?.mpr ⟨i, hoi'⟩)), hgi]
          refine ⟨?_, ?_, ?_⟩
          · show pairFlag E (rebuild E oi) oj = pairFlag E (rebuild E oi') oj'
            rw [pairFlag_geom E (rebuild E oi) oj, pairFlag_geom E (rebuild E oi') oj', e1, hgj]
          · show pairHits E (rebuild E oi) oj = pairHits E (rebuild E oi') oj'
            rw [pairHits_geom E (rebuild E oi) oj, pairHits_geom E (rebuild E oi') oj', e1, hgj]
          · show pairPoints E (rebuild E oi) oj = pairPoints E (rebuild E oi') oj'
            rw [pairPoints_geom E (rebuild E oi) oj, pairPoints_geom E (rebuild E oi') oj', e1,
              hgj]

/-- Two scenes with the same geometry and the same colliding flags, both
without a dirty object whose box is stale, give the same flags, count and
points. -/
theorem passOutput_congr (E : FloatOps F) (L L' : List (Object F))
    (hL : ∀ o ∈ L, o.needUpdate = true → o.collider = GetBoundingBox E o)
    (hL' : ∀ o ∈ L', o.needUpdate = true → o.collider = GetBoundingBox E o)
    (hg : ∀ k : Nat, (L[k]?).map geom = (L'[k]?).map geom)
    (hc : ∀ k : Nat, (L[k]?).map (fun o => o.colliding) = (L'[k]?).map (fun o => o.colliding)) :
    passOutput (collisionPass E L) = passOutput (collisionPass E L') := by
  have hlen : L.length = L'.length := by
    have h : L.map geom = L'.map geom := List.ext_getElem? (fun k => by
      rw [List.getElem?_map, List.getElem?_map, hg k])
    have := congrArg List.length h
    simpa using this
  have hpf : pairFlagAt E L = pairFlagAt E L' := by
    funext i j
    exact (pairAt_congr E L L' hL hL' hg i j).1
  have hph : pairHitsAt E L = pairHitsAt E L' := by
    funext i j
    exact (pairAt_congr E L L' hL hL' hg i j).2.1
  have hpp : pairPointsAt E L = pairPointsAt E L' := by
    funext i j
    exact (pairAt_congr E L L' hL hL' hg i j).2.2
  have hflag : ∀ k, doneFlag E L L.length k = doneFlag E L' L'.length k := by
    intro k
    unfold doneFlag rowFlag
    rw [hlen, hpf]
  have hhits : doneHits E L L.length = doneHits E L' L'.length := by
    unfold doneHits rowHits
    rw [hlen, hph]
  have hpts : donePoints E L L.length = donePoints E L' L'.length := by
    unfold donePoints rowPoints
    rw [hlen, hpp]
  unfold passOutput
  rw [(collisionPass_spec E L).2, (collisionPass_spec E L').2, collisionPass_points,
    collisionPass_points, hhits, hpts]
  congr 1
  apply List.ext_getElem?
  intro k
  rw [List.getElem?_map, List.getElem?_map, (collisionPass_spec E L).1 k,
    (collisionPass_spec E L').1 k, Option.map_map, Option.map_map, hflag k]
  have hck := hc k
  cases hk : L[k]? with
  | none =>
    rw [hk] at hck
    cases hk' : L'[k]? with
    | none => rfl
    | some o' => rw [hk'] at hck; cases hck
  | some o =>
    rw [hk] at hck
    cases hk' : L'[k]? with
    | none => rw [hk'] at hck; cases hck
    | some o' =>
      rw [hk'] at hck
      have : o.colliding = o'.colliding := Option.some.inj hck
      simp [markIf_colliding, rebuild_colliding, this]

/-- Lines 246-250 leave the box of an object as it is when the object is clean
or its cached box is already the box of its rotation. -/
theorem rebuild_collider_of_fresh (E : FloatOps F) (o : Object F)
    (h : o.needUpdate = true → o.collider = GetBoundingBox E o) :
    (rebuild E o).collider = o.collider := by
  rw [rebuild_collider]
  by_cases hd : o.needUpdate = true
  · rw [if_pos hd, ← h hd]
  · rw [if_neg hd]

theorem range'_split (s m n : Nat) :
    List.range' s (m + n) = List.range' s m ++ List.range' (s + m) n := by
  rw [List.range'_append_1, Nat.add_comm]

theorem range_split_at (n i : Nat) (h : i < n) :
    List.range n = List.range i ++ i :: List.range' (i + 1) (n - (i + 1)) := by
  have e : n = i + ((n - (i + 1)) + 1) := by omega
  rw [List.range_eq_range', List.range_eq_range']
  conv_lhs => rw [e]
  rw [range'_split, List.range'_succ, Nat.zero_add]

theorem range'_split_at (i j n : Nat) (h : i < j) (h2 : j < n) :
    List.range' (i + 1) (n - (i + 1)) =
      List.range' (i + 1) (j - (i + 1)) ++ j :: List.range' (j + 1) (n - (j + 1)) := by
  have e : n - (i + 1) = (j - (i + 1)) + ((n - (j + 1)) + 1) := by omega
  have e2 : i + 1 + (j - (i + 1)) = j := by omega
  rw [e, range'_split, List.range'_succ, e2]

/-! ### The state in which a pair is tested -/

/-- The pass goes through `stateAtPair`: it is the outer loop for the indices
above `i`, after the loop of line 252 for the indices above `j`, after the
body of that loop for `j` run from `stateAtPair`. -/
theorem collisionPass_through_pair (E : FloatOps F) (objs : List (Object F)) (i j : Nat)
    (hij : i < j) (hj : j < objs.length) :
    collisionPass E objs =
      (List.range' (i + 1) (objs.length - (i + 1))).foldl (outerStep E)
        ((List.range' (j + 1) (objs.length - (j + 1))).foldl (pairStep E i)
          (pairStep E i (stateAtPair E objs i j) j)) := by
  obtain ⟨h1, _⟩ := foldl_outerStep_spec E objs i (by omega)
  have hlen : ((List.range i).foldl (outerStep E) ⟨objs, 0, []⟩).objects.length = objs.length :=
    length_eq_of_pointwise objs _
      (fun k o => markIf (doneFlag E objs i k) (if k < i then rebuild E o else o)) h1
  have hrow : outerStep E ((List.range i).foldl (outerStep E) ⟨objs, 0, []⟩) i =
      (List.range' (j + 1) (objs.length - (j + 1))).foldl (pairStep E i)
        (pairStep E i (stateAtPair E objs i j) j) := by
    rw [outerStep_eq E _ i objs.length hlen]
    unfold partners
    rw [range'_split_at i j objs.length hij hj, List.foldl_append, List.foldl_cons]
    rfl
  unfold collisionPass
  rw [range_split_at objs.length i (by omega), List.foldl_append, List.foldl_cons, hrow]

/-- On a scene in which every dirty object's cached box already is the box
`GetBoundingBox` gives for it, a second frame run on the objects the first
frame left gives the same flags, count and points as the first. -/
theorem runCollisionPass_twice_of_fresh (E : FloatOps F) (objs : List (Object F))
    (hfresh : ∀ o ∈ objs, o.needUpdate = true → o.collider = GetBoundingBox E o) :
    passOutput (runCollisionPass E (runCollisionPass E objs).objects) =
      passOutput (runCollisionPass E objs) := by
  have hL : ∀ o ∈ resetFlags objs, o.needUpdate = true → o.collider = GetBoundingBox E o := by
    intro o ho hd
    rw [resetFlags_eq_map_core] at ho
    obtain ⟨y, hy, rfl⟩ := List.mem_map.mp ho
    exact hfresh y hy hd
  have hlook : ∀ k : Nat, (resetFlags (runCollisionPass E objs).objects)[k]? =
      (objs[k]?).map (fun y =>
        core (markIf (doneFlag E objs objs.length k) (rebuild E (core y)))) := by
    intro k
    rw [resetFlags_eq_map_core, List.getElem?_map, runCollisionPass_lookup, Option.map_map]
    rfl
  have hL' : ∀ o ∈ resetFlags (runCollisionPass E objs).objects,
      o.needUpdate = true → o.collider = GetBoundingBox E o := by
    intro o ho hd
    obtain ⟨k, hk⟩ := List.mem_iff_getElem?.mp ho
    rw [hlook k] at hk
    cases hok : objs[k]? with
    | none => rw [hok] at hk; cases hk
    | some y =>
      rw [hok] at hk
      have e : core (markIf (doneFlag E objs objs.length k) (rebuild E (core y))) = o :=
        Option.some.inj hk
      rw [← e] at hd
      have hn : (core (markIf (doneFlag E objs objs.length k)
          (rebuild E (core y)))).needUpdate = false := by
        show (markIf (doneFlag E objs objs.length k) (rebuild E (core y))).needUpdate = false
        rw [markIf_needUpdate, rebuild_needUpdate]
      rw [hn] at hd
      cases hd
  unfold runCollisionPass
  apply passOutput_congr E _ _ hL' hL
  · intro k
    rw [hlook k, resetFlags_eq_map_core, List.getElem?_map, Option.map_map, Option.map_map]
    cases hk : objs[k]? with
    | none => rfl
    | some y =>
      simp only [Option.map_some', Function.comp]
      rw [geom_core, geom_markIf, geom_rebuild_of_fresh E (core y)
        (hfresh y (List.mem_iff_getElem?.mpr ⟨k, hk⟩))]
  · intro k
    rw [hlook k, resetFlags_eq_map_core, List.getElem?_map, Option.map_map, Option.map_map]
    cases hk : objs[k]? with
    | none => rfl
    | some y => rfl

/-! ### Flags and count -/

/-- For a lower-indexed object that is clean, or dirty with the box of its
rotation, the Boolean `pairFlag` after lines 246-250 is the property
`PairCollides` on the cached boxes. -/
theorem pairFlag_rebuild_iff (E : FloatOps F) (oi oj : Object F)
    (h : oi.needUpdate = true → oi.collider = GetBoundingBox E oi) :
    pairFlag E (rebuild E oi) oj = true ↔ PairCollides E oi oj := by
  unfold pairFlag PairCollides sampleHit
  simp only [Bool.and_eq_true, List.any_eq_true, rebuild_pos, IsPointInside_rebuild,
    rebuild_collider_of_fresh E oi h, samplePoint_eq]
  constructor
  · rintro ⟨hb, t, ht, h1, h2⟩
    obtain ⟨hx, hy, hz⟩ := (mem_gridTriples t).mp ht
    exact ⟨hb, t.1, hx, t.2.1, hy, t.2.2, hz, h1, h2⟩
  · rintro ⟨hb, x, hx, y, hy, z, hz, h1, h2⟩
    exact ⟨hb, (x, y, z), (mem_gridTriples (x, y, z)).mpr ⟨hx, hy, hz⟩, h1, h2⟩

theorem pairFlagAt_iff (E : FloatOps F) (objs : List (Object F))
    (hfresh : ∀ o ∈ objs, o.needUpdate = true → o.collider = GetBoundingBox E o) (i j : Nat) :
    pairFlagAt E objs i j = true ↔
      ∃ oi oj, objs[i]? = some oi ∧ objs[j]? = some oj ∧ PairCollides E oi oj := by
  unfold pairFlagAt
  cases hi : objs[i]? with
  | none => simp
  | some oi =>
    cases hj : objs[j]? with
    | none => simp
    | some oj =>
      simp [pairFlag_rebuild_iff E oi oj (hfresh oi (List.mem_iff_getElem?.mpr ⟨i, hi⟩))]

/-- The increments counted for a pair are the tuples of the pair that hit. -/
theorem pairHitsAt_eq_countP (E : FloatOps F) (objs : List (Object F))
    (hfresh : ∀ o ∈ objs, o.needUpdate = true → o.collider = GetBoundingBox E o) (i j : Nat) :
    pairHitsAt E objs i j = gridTriples.countP (fun t => tupleHit E objs (i, j, t)) := by
  unfold pairHitsAt
  cases hi : objs[i]? with
  | none => simp [tupleHit, hi]
  | some oi =>
    cases hj : objs[j]? with
    | none => simp [tupleHit, hi, hj]
    | some oj =>
      have hc := rebuild_collider_of_fresh E oi (hfresh oi (List.mem_iff_getElem?.mpr ⟨i, hi⟩))
      simp only [pairHits, rebuild_pos, tupleHit, hi, hj, hc]
      by_cases hb : BoundingBoxCollision E oj.collider oj.pos oi.collider oi.pos = true
      · rw [if_pos hb]
        have hs : sampleHit E (rebuild E oi) oj = fun t =>
            (IsPointInside E
                ⟨E.ofInt (E.toInt (E.add (E.ofInt t.1) oi.pos.x)),
                 E.ofInt (E.toInt (E.add (E.ofInt t.2.1) oi.pos.y)),
                 E.ofInt (E.toInt (E.add (E.ofInt t.2.2) oi.pos.z))⟩ oi &&
              IsPointInside E
                ⟨E.ofInt (E.toInt (E.add (E.ofInt t.1) oi.pos.x)),
                 E.ofInt (E.toInt (E.add (E.ofInt t.2.1) oi.pos.y)),
                 E.ofInt (E.toInt (E.add (E.ofInt t.2.2) oi.pos.z))⟩ oj) := by
          funext t
          simp only [sampleHit, rebuild_pos, IsPointInside_rebuild, samplePoint_eq]
        simp only [hb, Bool.true_and, hs]
      · have hf : BoundingBoxCollision E oj.collider oj.pos oi.collider oi.pos = false := by
          simpa using hb
        rw [if_neg hb]
        simp [hf]

theorem candidateTuples_eq (n : Nat) :
    candidateTuples n = (List.range n).flatMap fun i => (partners n i).flatMap fun j =>
      gridTriples.map fun t => (i, j, t) := rfl

theorem doneHits_eq_countP (E : FloatOps F) (objs : List (Object F))
    (hfresh : ∀ o ∈ objs, o.needUpdate = true → o.collider = GetBoundingBox E o) :
    doneHits E objs objs.length = (candidateTuples objs.length).countP (tupleHit E objs) := by
  rw [candidateTuples_eq]
  unfold doneHits rowHits
  rw [List.countP_flatMap]
  congr 1
  refine List.map_congr_left (fun i _ => ?_)
  simp only [Function.comp]
  rw [List.countP_flatMap]
  congr 1
  refine List.map_congr_left (fun j _ => ?_)
  simp only [Function.comp]
  rw [List.countP_map, pairHitsAt_eq_countP E objs hfresh]
  rfl

/-- The list `candidateTuples n` holds exactly the tuples with `i < j < n` and
offsets in `-2 .. 2`. -/
theorem mem_candidateTuples (n : Nat) (t : Nat × Nat × Int × Int × Int) :
    t ∈ candidateTuples n ↔
      t.1 < t.2.1 ∧ t.2.1 < n ∧ t.2.2.1 ∈ ([-2, -1, 0, 1, 2] : List Int) ∧
        t.2.2.2.1 ∈ ([-2, -1, 0, 1, 2] : List Int) ∧
        t.2.2.2.2 ∈ ([-2, -1, 0, 1, 2] : List Int) := by
  obtain ⟨i, j, x, y, z⟩ := t
  rw [candidateTuples_eq]
  unfold partners
  simp only [List.mem_flatMap, List.mem_map, List.mem_range, List.mem_range'_1, Prod.mk.injEq]
  constructor
  · rintro ⟨a, ha, b, ⟨hb1, hb2⟩, c, hc, rfl, rfl, hc2⟩
    subst hc2
    have := (mem_gridTriples (x, y, z)).mp hc
    exact ⟨by omega, by omega, this⟩
  · rintro ⟨hij, hj, hx, hy, hz⟩
    exact ⟨i, by omega, j, ⟨by omega, by omega⟩, (x, y, z),
      (mem_gridTriples (x, y, z)).mpr ⟨hx, hy, hz⟩, rfl, rfl, rfl⟩

/-- On a scene in which every dirty object's cached box already is the box
`GetBoundingBox` gives for it, the colliding flags and the count after a frame
are those of `PairCollides` and `tupleHit` on the cached boxes. -/
theorem runCollisionPass_flags_of_fresh (E : FloatOps F) (objs : List (Object F))
    (hfresh : ∀ o ∈ objs, o.needUpdate = true → o.collider = GetBoundingBox E o) :
    (∀ (k : Nat) (ok : Object F), objs[k]? = some ok →
      ∃ o', (runCollisionPass E objs).objects[k]? = some o' ∧
        (o'.colliding = true ↔
          ∃ m om, objs[m]? = some om ∧
            ((k < m ∧ PairCollides E ok om) ∨ (m < k ∧ PairCollides E om ok)))) ∧
    (runCollisionPass E objs).collisions =
      (candidateTuples objs.length).countP (tupleHit E objs) ∧
    ((∀ (i j : Nat) (oi oj : Object F), i < j → objs[i]? = some oi → objs[j]? = some oj →
        BoundingBoxCollision E oj.collider oj.pos oi.collider oi.pos = false) →
      (runCollisionPass E objs).collisions = 0 ∧
      ∀ o' ∈ (runCollisionPass E objs).objects, o'.colliding = false) := by
  have hflag : ∀ (k : Nat) (ok : Object F), objs[k]? = some ok →
      (doneFlag E objs objs.length k = true ↔
        ∃ m om, objs[m]? = some om ∧
          ((k < m ∧ PairCollides E ok om) ∨ (m < k ∧ PairCollides E om ok))) := by
    intro k ok hk
    rw [doneFlag_iff]
    constructor
    · rintro ⟨i, j, hij, _, hkij, hp⟩
      obtain ⟨oi, oj, hoi, hoj, hc⟩ := (pairFlagAt_iff E objs hfresh i j).mp hp
      rcases hkij with rfl | rfl
      · rw [hk] at hoi
        cases hoi
        exact ⟨j, oj, hoj, Or.inl ⟨hij, hc⟩⟩
      · rw [hk] at hoj
        cases hoj
        exact ⟨i, oi, hoi, Or.inr ⟨hij, hc⟩⟩
    · rintro ⟨m, om, hm, ⟨hlt, hc⟩ | ⟨hlt, hc⟩⟩
      · exact ⟨k, m, hlt, (List.getElem?_eq_some.mp hm).1, Or.inl rfl,
          (pairFlagAt_iff E objs hfresh k m).mpr ⟨ok, om, hk, hm, hc⟩⟩
      · exact ⟨m, k, hlt, (List.getElem?_eq_some.mp hk).1, Or.inr rfl,
          (pairFlagAt_iff E objs hfresh m k).mpr ⟨om, ok, hm, hk, hc⟩⟩
  have hcount : (runCollisionPass E objs).collisions =
      (candidateTuples objs.length).countP (tupleHit E objs) := by
    unfold runCollisionPass
    rw [(collisionPass_spec E (resetFlags objs)).2, doneHits_resetFlags]
    have hl : (resetFlags objs).length = objs.length := by simp [resetFlags]
    rw [hl, doneHits_eq_countP E objs hfresh]
  refine ⟨?_, hcount, ?_⟩
  · intro k ok hk
    refine ⟨markIf (doneFlag E objs objs.length k) (rebuild E (core ok)), ?_, ?_⟩
    · rw [runCollisionPass_lookup, hk]
      rfl
    · rw [markIf_colliding, rebuild_colliding, ← hflag k ok hk]
      show (doneFlag E objs objs.length k || false) = true ↔ _
      rw [Bool.or_false]
  · intro hno
    constructor
    · rw [hcount, List.countP_eq_zero]
      intro t ht
      have hlt := ((mem_candidateTuples objs.length t).mp ht).1
      unfold tupleHit
      cases hi : objs[t.1]? with
      | none => simp
      | some oi =>
        cases hj : objs[t.2.1]? with
        | none => simp
        | some oj => simp [hno t.1 t.2.1 oi oj hlt hi hj]
    · intro o' ho'
      obtain ⟨k, hk⟩ := List.mem_iff_getElem?.mp ho'
      rw [runCollisionPass_lookup] at hk
      cases hok : objs[k]? with
      | none => rw [hok] at hk; cases hk
      | some ok =>
        rw [hok] at hk
        have hk2 : markIf (doneFlag E objs objs.length k) (rebuild E (core ok)) = o' :=
          Option.some.inj hk
        have hd : doneFlag E objs objs.length k = false := by
          rw [← Bool.not_eq_true]
          intro hd
          obtain ⟨m, om, hm, ⟨hlt, hc⟩ | ⟨hlt, hc⟩⟩ := (hflag k ok hok).mp hd
          · have := hno k m ok om hlt hok hm
            rw [hc.1] at this
            cases this
          · have := hno m k om ok hlt hm hok
            rw [hc.1] at this
            cases this
        rw [← hk2, hd, markIf_false, rebuild_colliding]
        rfl

/-! ### The scenes `main` hands to the pass -/

theorem forall_mem_updateAt {α : Type} (P : α → Prop) (l : List α) (k : Nat) (f : α → α)
    (hl : ∀ a ∈ l, P a) (hf : ∀ a ∈ l, P (f a)) : ∀ a ∈ updateAt l k f, P a := by
  intro a ha
  obtain ⟨n, hn⟩ := List.mem_iff_getElem?.mp ha
  rw [updateAt_lookup] at hn
  cases hl2 : l[n]? with
  | none =>
    rw [hl2] at hn
    split at hn <;> cases hn
  | some b =>
    rw [hl2] at hn
    have hb : b ∈ l := List.mem_iff_getElem?.mpr ⟨n, hl2⟩
    split at hn
    · have : f b = a := Option.some.inj hn
      rw [← this]
      exact hf b hb
    · have : b = a := Option.some.inj hn
      rw [← this]
      exact hl b hb

theorem forall_mem_copyObject {α : Type} (P : Object α → Prop) (l : List (Object α))
    (k src : Nat) (hl : ∀ a ∈ l, P a) : ∀ a ∈ copyObject l k src, P a := by
  unfold copyObject
  cases h : l[src]? with
  | none => exact hl
  | some o =>
    exact forall_mem_updateAt P l k (fun _ => o) hl
      (fun _ _ => hl o (List.mem_iff_getElem?.mpr ⟨src, h⟩))

/-- Every object of the initial scene holds the box of its rotation. -/
theorem initScene_fresh (E : FloatOps F) (choices : List (Model F × Int × Int)) :
    ∀ o ∈ initScene E choices, o.collider = GetBoundingBox E o := by
  intro o ho
  obtain ⟨c, _, rfl⟩ := List.mem_map.mp ho
  exact (GetBoundingBox_congr E _ _ rfl rfl rfl).symm

theorem selectObject_fresh (E : FloatOps F) (inp : FrameInput F) (st : List (Object F) × Nat)
    (h : ∀ o ∈ st.1, o.collider = GetBoundingBox E o) :
    ∀ o ∈ (selectObject inp st).1, o.collider = GetBoundingBox E o := by
  have h1 : ∀ o ∈ (if inp.tab then pressTab st else st).1,
      o.collider = GetBoundingBox E o := by
    split
    · exact forall_mem_copyObject _ _ _ _ (forall_mem_copyObject _ _ _ _ h)
    · exact h
  unfold selectObject
  simp only []
  split
  · exact forall_mem_copyObject _ _ _ _ (forall_mem_copyObject _ _ _ _ h1)
  · exact h1

/-- A change of `obj` that keeps its model, rotation and box keeps the boxes
the boxes of the rotations. -/
theorem ite_updateAt_fresh (E : FloatOps F) (c : Bool) (l : List (Object F))
    (f : Object F → Object F)
    (hf : ∀ o, (f o).collider = o.collider ∧ GetBoundingBox E (f o) = GetBoundingBox E o)
    (h : ∀ o ∈ l, o.collider = GetBoundingBox E o) :
    ∀ o ∈ (if c then updateAt l 0 f else l), o.collider = GetBoundingBox E o := by
  split
  · exact forall_mem_updateAt _ l 0 f h (fun o ho => by rw [(hf o).1, (hf o).2]; exact h o ho)
  · exact h

theorem moveSelected_fresh (E : FloatOps F) (inp : FrameInput F) (objects : List (Object F))
    (h : ∀ o ∈ objects, o.collider = GetBoundingBox E o) :
    ∀ o ∈ moveSelected E inp objects, o.collider = GetBoundingBox E o := by
  unfold moveSelected
  simp only []
  refine ite_updateAt_fresh E _ _ _ (fun o => ⟨rfl, GetBoundingBox_congr E o _ rfl rfl rfl⟩) ?_
  refine ite_updateAt_fresh E _ _ _ (fun o => ⟨rfl, GetBoundingBox_congr E o _ rfl rfl rfl⟩) ?_
  refine ite_updateAt_fresh E _ _ _ (fun o => ⟨rfl, GetBoundingBox_congr E o _ rfl rfl rfl⟩) ?_
  refine ite_updateAt_fresh E _ _ _ (fun o => ⟨rfl, GetBoundingBox_congr E o _ rfl rfl rfl⟩) ?_
  refine ite_updateAt_fresh E _ _ _ (fun o => ⟨rfl, GetBoundingBox_congr E o _ rfl rfl rfl⟩) ?_
  exact ite_updateAt_fresh E _ _ _ (fun o => ⟨rfl, GetBoundingBox_congr E o _ rfl rfl rfl⟩) h

/-- A change of `obj` that sets its dirty flag leaves every object other than
`obj` as it was and `obj` dirty. -/
theorem ite_updateAt_dirty (E : FloatOps F) (c : Bool) (l : List (Object F))
    (f : Object F → Object F) (hf : ∀ o, (f o).needUpdate = true)
    (h : ∀ (k : Nat) (o : Object F), l[k]? = some o →
      o.collider = GetBoundingBox E o ∨ (k = 0 ∧ o.needUpdate = true)) :
    ∀ (k : Nat) (o : Object F), (if c then updateAt l 0 f else l)[k]? = some o →
      o.collider = GetBoundingBox E o ∨ (k = 0 ∧ o.needUpdate = true) := by
  split
  · intro k o hk
    rw [updateAt_lookup] at hk
    split at hk
    · next hk0 =>
      cases hl : l[k]? with
      | none => rw [hl] at hk; cases hk
      | some b =>
        rw [hl] at hk
        have : f b = o := Option.some.inj hk
        rw [← this]
        exact Or.inr ⟨hk0, hf b⟩
    · exact h k o hk
  · exact h

theorem turnSelected_dirty (E : FloatOps F) (inp : FrameInput F) (objects : List (Object F))
    (h : ∀ o ∈ objects, o.collider = GetBoundingBox E o) :
    ∀ (k : Nat) (o : Object F), (turnSelected E inp objects)[k]? = some o →
      o.collider = GetBoundingBox E o ∨ (k = 0 ∧ o.needUpdate = true) := by
  unfold turnSelected
  simp only []
  refine ite_updateAt_dirty E _ _ _ (fun _ => rfl) ?_
  refine ite_updateAt_dirty E _ _ _ (fun _ => rfl) ?_
  intro k o hk
  exact Or.inl (h o (List.mem_iff_getElem?.mpr ⟨k, hk⟩))

/-- The input handling keeps every box the box of its object's rotation: the
only object it rotates is `obj`, which lines 234-238 rebuild before the pass. -/
theorem handleInput_fresh (E : FloatOps F) (inp : FrameInput F) (st : List (Object F) × Nat)
    (h : ∀ o ∈ st.1, o.collider = GetBoundingBox E o) :
    ∀ o ∈ (handleInput E inp st).1, o.collider = GetBoundingBox E o := by
  have hJ := turnSelected_dirty E inp _
    (moveSelected_fresh E inp _ (selectObject_fresh E inp st h))
  unfold handleInput
  simp only []
  generalize turnSelected E inp (moveSelected E inp (selectObject inp st).1) = l at hJ
  intro o ho
  obtain ⟨n, hn⟩ := List.mem_iff_getElem?.mp ho
  rw [updateAt_lookup] at hn
  split at hn
  · next hn0 =>
    cases hl : l[n]? with
    | none => rw [hl] at hn; cases hn
    | some b =>
      rw [hl] at hn
      have e : rebuild E b = o := Option.some.inj hn
      rw [← e, rebuild_collider]
      have hg : GetBoundingBox E (rebuild E b) = GetBoundingBox E b :=
        GetBoundingBox_congr E b _ (rebuild_model E b) (rebuild_rotationAxis E b)
          (rebuild_rotationAngle E b)
      rw [hg]
      by_cases hd : b.needUpdate = true
      · rw [if_pos hd]
      · rw [if_neg hd]
        rcases hJ n b hl with hf | ⟨_, hd2⟩
        · exact hf
        · exact absurd hd2 hd
  · next hn0 =>
    rcases hJ n o hn with hf | ⟨h0, _⟩
    · exact hf
    · exact absurd h0 hn0

theorem resetFlags_fresh (E : FloatOps F) (objs : List (Object F))
    (h : ∀ o ∈ objs, o.collider = GetBoundingBox E o) :
    ∀ o ∈ resetFlags objs, o.collider = GetBoundingBox E o := by
  intro o ho
  rw [resetFlags_eq_map_core] at ho
  obtain ⟨y, hy, rfl⟩ := List.mem_map.mp ho
  exact (h y hy).trans (GetBoundingBox_congr E y _ rfl rfl rfl).symm

theorem collisionPass_fresh (E : FloatOps F) (objs : List (Object F))
    (h : ∀ o ∈ objs, o.collider = GetBoundingBox E o) :
    ∀ o ∈ (collisionPass E objs).objects, o.collider = GetBoundingBox E o := by
  intro o ho
  obtain ⟨k, hk⟩ := List.mem_iff_getElem?.mp ho
  obtain ⟨y, hy, rfl⟩ := collisionPass_lookup E objs k o hk
  have hy2 : y ∈ objs := List.mem_iff_getElem?.mpr ⟨k, hy⟩
  have hg : GetBoundingBox E (markIf (doneFlag E objs objs.length k) (rebuild E y)) =
      GetBoundingBox E y :=
    GetBoundingBox_congr E y _ (by rw [markIf_model, rebuild_model])
      (by rw [markIf_rotationAxis, rebuild_rotationAxis])
      (by rw [markIf_rotationAngle, rebuild_rotationAngle])
  rw [hg, markIf_collider, rebuild_collider_of_fresh E y (fun _ => h y hy2)]
  exact h y hy2

theorem frame_fresh (E : FloatOps F) (st : List (Object F) × Nat) (inp : FrameInput F)
    (h : ∀ o ∈ st.1, o.collider = GetBoundingBox E o) :
    ∀ o ∈ (frame E st inp).1, o.collider = GetBoundingBox E o := by
  unfold frame
  simp only []
  exact forall_mem_updateAt _ _ 0 _
    (collisionPass_fresh E _ (handleInput_fresh E inp _ (resetFlags_fresh E st.1 h)))
    (fun o ho => (collisionPass_fresh E _
      (handleInput_fresh E inp _ (resetFlags_fresh E st.1 h)) o ho).trans
      (GetBoundingBox_congr E o _ rfl rfl rfl).symm)

theorem foldl_frame_fresh (E : FloatOps F) (inputs : List (FrameInput F))
    (st : List (Object F) × Nat) (h : ∀ o ∈ st.1, o.collider = GetBoundingBox E o) :
    ∀ o ∈ (inputs.foldl (frame E) st).1, o.collider = GetBoundingBox E o := by
  induction inputs generalizing st with
  | nil => exact h
  | cons inp inputs ih => exact ih (frame E st inp) (frame_fresh E st inp h)

theorem mainState_fresh (E : FloatOps F) (choices : List (Model F × Int × Int))
    (inputs : List (FrameInput F)) :
    ∀ o ∈ (mainState E choices inputs).1, o.collider = GetBoundingBox E o :=
  foldl_frame_fresh E inputs (initScene E choices, 0) (initScene_fresh E choices)

/-- In every frame of `main`, whatever the models, the positions and the keys,
every object of the scene line 240 hands to the pass holds the box
`GetBoundingBox` gives for it. -/
theorem sceneAtPass_fresh (E : FloatOps F) (choices : List (Model F × Int × Int))
    (inputs : List (FrameInput F)) (inp : FrameInput F) :
    ∀ o ∈ sceneAtPass E inp (mainState E choices inputs), o.collider = GetBoundingBox E o :=
  handleInput_fresh E inp _ (resetFlags_fresh E _ (mainState_fresh E choices inputs))

/-! ### The pass on the scenes of `main` -/

/-- C7: for the scene of any frame of `main` (any models, positions and keys),
running the collision pass (the reset of the flags and the counter, then the
pair loop) and running it a second time on the objects the first run left,
with no change in between, gives the same colliding flags, the same count and
the same list of sampled points both times. -/
theorem runCollisionPass_twice (E : FloatOps F) (choices : List (Model F × Int × Int))
    (inputs : List (FrameInput F)) (inp : FrameInput F) (objs : List (Object F))
    (hobjs : objs = sceneAtPass E inp (mainState E choices inputs)) :
    passOutput (runCollisionPass E (runCollisionPass E objs).objects) =
      passOutput (runCollisionPass E objs) := by
  apply runCollisionPass_twice_of_fresh
  intro o ho _
  rw [hobjs] at ho
  exact sceneAtPass_fresh E choices inputs inp o ho

/-- C8: for the scene of any frame of `main` (any models, positions and keys)
and every object `k`, after the reset and the pass with the grid offsets -2..2
object `k` is colliding iff there is another object `m` such that, with `i`
the lower and `j` the higher of the two indices, `BoundingBoxCollision` holds
for the cached boxes and the positions of `i` and `j` and some offsets
`x, y, z` in -2..2 give a point `objects[i].pos + (x, y, z)`, each coordinate
truncated to an integer, that `IsPointInside` accepts for both objects;
`collisions` is the number of tuples `(i, j, x, y, z)`, `i < j`, that pass both
tests; so when no pair passes `BoundingBoxCollision` the count is 0 and no
object is colliding. -/
theorem runCollisionPass_flags_and_count (E : FloatOps F)
    (choices : List (Model F × Int × Int)) (inputs : List (FrameInput F))
    (inp : FrameInput F) (objs : List (Object F))
    (hobjs : objs = sceneAtPass E inp (mainState E choices inputs)) :
    (∀ (k : Nat) (ok : Object F), objs[k]? = some ok →
      ∃ o', (runCollisionPass E objs).objects[k]? = some o' ∧
        (o'.colliding = true ↔
          ∃ (m : Nat) (om oi oj : Object F), objs[m]? = some om ∧
            ((k < m ∧ oi = ok ∧ oj = om) ∨ (m < k ∧ oi = om ∧ oj = ok)) ∧
            BoundingBoxCollision E oj.collider oj.pos oi.collider oi.pos = true ∧
            ∃ x ∈ ([-2, -1, 0, 1, 2] : List Int), ∃ y ∈ ([-2, -1, 0, 1, 2] : List Int),
              ∃ z ∈ ([-2, -1, 0, 1, 2] : List Int),
                IsPointInside E
                  ⟨E.ofInt (E.toInt (E.add (E.ofInt x) oi.pos.x)),
                   E.ofInt (E.toInt (E.add (E.ofInt y) oi.pos.y)),
                   E.ofInt (E.toInt (E.add (E.ofInt z) oi.pos.z))⟩ oi = true ∧
                IsPointInside E
                  ⟨E.ofInt (E.toInt (E.add (E.ofInt x) oi.pos.x)),
                   E.ofInt (E.toInt (E.add (E.ofInt y) oi.pos.y)),
                   E.ofInt (E.toInt (E.add (E.ofInt z) oi.pos.z))⟩ oj = true)) ∧
    (runCollisionPass E objs).collisions =
      (candidateTuples objs.length).countP (tupleHit E objs) ∧
    ((∀ (i j : Nat) (oi oj : Object F), i < j → objs[i]? = some oi → objs[j]? = some oj →
        BoundingBoxCollision E oj.collider oj.pos oi.collider oi.pos = false) →
      (runCollisionPass E objs).collisions = 0 ∧
      ∀ o' ∈ (runCollisionPass E objs).objects, o'.colliding = false) := by
  have hfresh : ∀ o ∈ objs, o.needUpdate = true → o.collider = GetBoundingBox E o := by
    intro o ho _
    rw [hobjs] at ho
    exact sceneAtPass_fresh E choices inputs inp o ho
  obtain ⟨h1, h2, h3⟩ := runCollisionPass_flags_of_fresh E objs hfresh
  refine ⟨?_, h2, h3⟩
  intro k ok hk
  obtain ⟨o', ho', hiff⟩ := h1 k ok hk
  refine ⟨o', ho', hiff.trans ?_⟩
  constructor
  · rintro ⟨m, om, hm, ⟨hlt, hb, hp⟩ | ⟨hlt, hb, hp⟩⟩
    · exact ⟨m, om, ok, om, hm, Or.inl ⟨hlt, rfl, rfl⟩, hb, hp⟩
    · exact ⟨m, om, om, ok, hm, Or.inr ⟨hlt, rfl, rfl⟩, hb, hp⟩
  · rintro ⟨m, om, oi, oj, hm, ⟨hlt, rfl, rfl⟩ | ⟨hlt, rfl, rfl⟩, hb, hp⟩
    · exact ⟨m, oj, hm, Or.inl ⟨hlt, hb, hp⟩⟩
    · exact ⟨m, oi, hm, Or.inr ⟨hlt, hb, hp⟩⟩

end PassLemmas

/-! ## The pass on the concrete scenes -/

/-- C9, evaluation: the dirty second object of `staleScene` holds the invalid
box before the pass and the box of the triangle after it. -/
theorem collisionPass_boxes_witness :
    (collisionPass exactOps staleScene).objects.length = 2 ∧
    (collisionPass exactOps staleScene).objects.map (fun o => (o.needUpdate, o.collider)) =
      [(false, ⟨⟨0, 0, 0⟩, ⟨1, 0, 1⟩⟩), (false, ⟨⟨0, 0, 0⟩, ⟨1, 0, 1⟩⟩)] :=
  ⟨(collisionPass_boxes exactOps staleScene).1, by decide!⟩

/-- C7, witness: two frames on the scene of the first frame of `main` for two
cubes and the key H. -/
theorem runCollisionPass_twice_witness :
    demoScene = sceneAtPass exactOps demoInput (mainState exactOps demoChoices []) ∧
    passOutput (runCollisionPass exactOps (runCollisionPass exactOps demoScene).objects) =
      passOutput (runCollisionPass exactOps demoScene) ∧
    (passOutput (runCollisionPass exactOps demoScene)).1 = [true, true] ∧
    (passOutput (runCollisionPass exactOps demoScene)).2.2.length = 125 :=
  ⟨rfl, runCollisionPass_twice exactOps demoChoices [] demoInput demoScene rfl, by decide!,
    by decide!⟩

/-- C8, witness: the scene of the first frame of `main` for two cubes and the
key H, the first cube at `(5/16, 0, 0)`. The truncated coordinates
`trunc(x + 5/16)` for `x = -1, 0` are `0`, so two offsets give a point inside
both cubes: the count is 2. -/
theorem runCollisionPass_flags_and_count_witness :
    demoScene = sceneAtPass exactOps demoInput (mainState exactOps demoChoices []) ∧
    (runCollisionPass exactOps demoScene).collisions =
      (candidateTuples demoScene.length).countP (tupleHit exactOps demoScene) ∧
    (runCollisionPass exactOps demoScene).collisions = 2 ∧
    ((runCollisionPass exactOps demoScene).objects.map fun o => o.colliding) = [true, true] :=
  ⟨rfl, (runCollisionPass_flags_and_count exactOps demoChoices [] demoInput demoScene rfl).2.1,
    by decide!, by decide!⟩

/-! ## Scenes with a dirty object whose box is stale

`main` never hands such a scene to the pass (`sceneAtPass_fresh`): line 146
builds every box, and lines 234-238 rebuild the only object that is rotated.
The theorems below record what the pass does on them. -/

/-- In `staleScene` the second object is dirty and holds the invalid box. When
line 254 tests the pair `(0, 1)` that object still is dirty and still holds
the invalid box; the pass reports no point and no collision, the same pass on
the scene with the box rebuilt beforehand reports 125 points and 75
collisions. -/
theorem collisionPass_tests_stale_box :
    ((stateAtPair exactOps staleScene 0 1).objects.map fun o =>
      (o.needUpdate, decide (o.collider = GetBoundingBox exactOps o))) =
        [(false, true), (true, false)] ∧
    passOutput (collisionPass exactOps staleScene) = ([false, false], 0, []) ∧
    (passOutput (collisionPass exactOps (staleScene.map (rebuild exactOps)))).1 = [true, true] ∧
    (passOutput (collisionPass exactOps (staleScene.map (rebuild exactOps)))).2.1 = 75 ∧
    (passOutput (collisionPass exactOps (staleScene.map (rebuild exactOps)))).2.2.length = 125 := by
  decide!

/-- The first frame on `staleScene` reports no collision and no point; the
second frame, on the objects the first one left, reports both objects
colliding, 75 collisions and 125 points. -/
theorem runCollisionPass_twice_differs :
    passOutput (runCollisionPass exactOps staleScene) = ([false, false], 0, []) ∧
    (passOutput (runCollisionPass exactOps (runCollisionPass exactOps staleScene).objects)).1 =
      [true, true] ∧
    (passOutput (runCollisionPass exactOps (runCollisionPass exactOps staleScene).objects)).2.1 =
      75 ∧
    (passOutput (runCollisionPass exactOps
      (runCollisionPass exactOps staleScene).objects)).2.2.length = 125 := by
  decide!

/-- On such scenes the colliding flags are not those of `PairCollides` on the
cached boxes, neither on the boxes the scene holds before the pass
(`staleFirstScene`: object 0 is colliding after the pass, but its cached box,
the invalid one, does not pass `BoundingBoxCollision` with the only other
object) nor on the boxes it holds after the pass (`staleScene`: no object is
colliding after the pass, but the boxes and the origin pass both tests). -/
theorem flags_on_stale_boxes :
    (¬ ∀ (k : Nat) (ok : Object ℚ), staleFirstScene[k]? = some ok →
      ∃ o', (runCollisionPass exactOps staleFirstScene).objects[k]? = some o' ∧
        (o'.colliding = true ↔
          ∃ m om, staleFirstScene[m]? = some om ∧
            ((k < m ∧ PairCollides exactOps ok om) ∨ (m < k ∧ PairCollides exactOps om ok)))) ∧
    (¬ ∀ (k : Nat) (o' : Object ℚ),
      (runCollisionPass exactOps staleScene).objects[k]? = some o' →
        (o'.colliding = true ↔
          ∃ m om, (runCollisionPass exactOps staleScene).objects[m]? = some om ∧
            ((k < m ∧ PairCollides exactOps o' om) ∨
              (m < k ∧ PairCollides exactOps om o')))) := by
  constructor
  · intro h
    obtain ⟨o', ho', hiff⟩ := h 0 (freshObject ⟨[triangle]⟩) rfl
    have h0 : ((runCollisionPass exactOps staleFirstScene).objects[0]?).map
        (fun o => o.colliding) = some true := by decide!
    rw [ho'] at h0
    have hflag : o'.colliding = true := Option.some.inj h0
    obtain ⟨m, om, hm, hc | hc⟩ := hiff.mp hflag
    · have hm2 : m < 2 := (List.getElem?_eq_some.mp hm).1
      have hm1 : m = 1 := by omega
      subst hm1
      have hom : staleFirstScene[1]? = some builtTriangle := rfl
      rw [hom] at hm
      have : builtTriangle = om := Option.some.inj hm
      subst this
      have hb : BoundingBoxCollision exactOps builtTriangle.collider builtTriangle.pos
          (freshObject ⟨[triangle]⟩).collider (freshObject ⟨[triangle]⟩).pos = false := by
        decide!
      have := hc.2.1
      rw [hb] at this
      cases this
    · omega
  · have hF : (runCollisionPass exactOps staleScene).objects = builtScene := by decide!
    rw [hF]
    intro h
    have hpc : PairCollides exactOps builtTriangle builtTriangle :=
      ⟨by decide!, 0, by decide, 0, by decide, 0, by decide, by decide!, by decide!⟩
    have := (h 0 builtTriangle rfl).mpr ⟨1, builtTriangle, rfl, Or.inl ⟨by decide, hpc⟩⟩
    exact absurd this (by decide)


end TPN3
